import Mathlib

/-!
# iodined: the transport reactor `tunnel()` and the start-up sequence of `main()`

A shallow embedding of `src/iodined.c`.

* The collaborators of `tunnel()` (the DNS channel `dnsd_*`, the tun device
  `read_tun`/`write_tun`, zlib `compress2`/`uncompress`, libc `select`/`warn`
  and the global `running` that the signal handler clears) are an arbitrary
  structure `Collab W` of state-passing functions over a world type `W`.
* One execution of the loop body (starting at the `while (running)` test) is
  `tunnel_iter`; the loop itself is `tunnel`, which takes the number of
  iterations it may run as fuel.  Both are written over any `Collab W` and
  contain nothing but the code.
* Which calls are made, with which arguments, in which world and in which
  order is observed by running the code over the tracing collaborators
  `traced c`: they behave as `c` does and append every call, with the world
  it was entered in, to a trace kept in the world.
-/

namespace Iodined

/-! ## Data model -/

/-- Contents of a `char` buffer, one number per byte. -/
abbrev Buf := List Nat

/-- The `struct timeval` handed to `select`. -/
structure timeval where
  tv_sec : Int
  tv_usec : Int
deriving DecidableEq, Repr

/-- An `fd_set`: the descriptors that are members. -/
abbrev fd_set := List Int

/-- The macro `FD_ZERO(&fds)`. -/
def FD_ZERO : fd_set := []

/-- The macro `FD_SET(fd, &fds)`. -/
def FD_SET (fd : Int) (fds : fd_set) : fd_set := fd :: fds

/-- The macro `FD_ISSET(fd, &fds)`. -/
def FD_ISSET (fd : Int) (fds : fd_set) : Bool := decide (fd ∈ fds)

/-- The macro `MAX(a,b) ((a)>(b)?(a):(b))`. -/
def MAX (a b : Int) : Int := if a > b then a else b

/-- The value of `sizeof(in)` and `sizeof(out)`: both buffers are `char [64*1024]`. -/
def BUFSZ : Nat := 64 * 1024

/-- The collaborators of `tunnel()`, as state-passing functions over a world
`W`.  `running` reads the global flag (the signal handler may change it at
any time).  `select` returns its `int` result together with the descriptors
it found readable; functions that fill a buffer return the new contents of
that buffer. -/
structure Collab (W : Type) where
  running : W → Bool × W
  dnsd_hasack : W → Bool × W
  dnsd_haspacket : W → Bool × W
  select : Int → fd_set → timeval → W → (Int × List Int) × W
  warn : String → W → W
  dnsd_forceack : Int → W → W
  read_tun : Int → Buf → Nat → W → (Int × Buf) × W
  compress2 : Buf → Int → Buf → Int → Int → W → (Buf × Int) × W
  dnsd_queuepacket : Buf → Int → W → W
  dnsd_read : Int → Buf → Nat → W → (Int × Buf) × W
  uncompress : Buf → Int → Buf → Int → W → (Buf × Int) × W
  write_tun : Int → Buf → Int → W → W

/-- The world together with the two stack buffers `in` and `out`, which
live across iterations. -/
structure Locals (W : Type) where
  world : W
  inbuf : Buf
  outbuf : Buf

/-- How a block of the loop body ends: by reaching its end, by `continue`,
or by `return status`. -/
inductive Ctl where
  | fall
  | cont
  | ret (status : Int)
deriving DecidableEq, Repr

/-- The status returned, when the block ended in `return`. -/
def Ctl.status : Ctl → Option Int
  | .ret r => some r
  | _ => none

/-- Result of executing a block of the loop body: how it ended and the
state it left. -/
structure IterOut (W : Type) where
  ctl : Ctl
  st : Locals W

/-- The empty block. -/
def skip {W : Type} (s : Locals W) : IterOut W :=
  { ctl := .fall, st := s }

/-- Sequential composition: the second block runs only when the first one
reached its end. -/
def IterOut.seq {W : Type} (a : IterOut W) (f : Locals W → IterOut W) : IterOut W :=
  match a.ctl with
  | .fall => f a.st
  | _ => a

/-! ## The handshake reply `snprintf(in, sizeof(in), "%s-%d", "172.30.5.2", 1023)` -/

/-- Decimal digits of a natural number, most significant first
(`fuel` bounds the number of digits). -/
def decDigits : Nat → Nat → List Nat → List Nat
  | 0, _, acc => acc
  | fuel + 1, n, acc =>
    if n / 10 = 0 then (48 + n % 10) :: acc
    else decDigits fuel (n / 10) ((48 + n % 10) :: acc)

/-- The conversion `%d`. -/
def fmt_d (d : Int) : List Nat :=
  if d < 0 then 45 :: decDigits 20 d.natAbs [] else decDigits 20 d.natAbs []

/-- The conversion `%s`. -/
def fmt_s (s : String) : List Nat := s.toList.map Char.toNat

/-- The format `"%s-%d"`. -/
def fmt_s_d (s : String) (d : Int) : List Nat := fmt_s s ++ 45 :: fmt_d d

/-- The call `snprintf(buf, size, ...)` for formatted output `bytes`: at most
`size - 1` bytes and a terminating NUL are stored at the start of the buffer;
the result is the length of the whole formatted output. -/
def snprintf (buf : Buf) (size : Nat) (bytes : List Nat) : Int × Buf :=
  let stored := if size = 0 then [] else bytes.take (size - 1) ++ [0]
  ((bytes.length : Int), stored ++ buf.drop stored.length)

/-! ## `tunnel()` -/

section Tunnel

variable {W : Type}

/-- The body of `if(FD_ISSET(tun_fd, &fds)) { ... }` (lines 83-89). -/
def tun_branch (c : Collab W) (tun_fd : Int) (s : Locals W) : IterOut W :=
  let rd := c.read_tun tun_fd s.inbuf BUFSZ s.world
  let read := rd.1.1
  let in1 := rd.1.2
  if read ≤ 0 then
    { ctl := .cont, st := ⟨rd.2, in1, s.outbuf⟩ }
  else
    let cp := c.compress2 s.outbuf BUFSZ in1 read 9 rd.2
    let out1 := cp.1.1
    let outlen := cp.1.2
    { ctl := .fall, st := ⟨c.dnsd_queuepacket out1 outlen cp.2, in1, out1⟩ }

/-- The body of `if(FD_ISSET(dns_fd, &fds)) { ... }` (lines 92-104). -/
def dns_branch (c : Collab W) (GOTHELLO : Int) (tun_fd dns_fd : Int)
    (s : Locals W) : IterOut W :=
  let rd := c.dnsd_read dns_fd s.inbuf BUFSZ s.world
  let read := rd.1.1
  let in1 := rd.1.2
  if read ≤ 0 then
    if read = GOTHELLO then
      let sp := snprintf in1 BUFSZ (fmt_s_d "172.30.5.2" 1023)
      { ctl := .cont, st := ⟨c.dnsd_queuepacket sp.2 sp.1 rd.2, sp.2, s.outbuf⟩ }
    else
      { ctl := .cont, st := ⟨rd.2, in1, s.outbuf⟩ }
  else
    let un := c.uncompress s.outbuf BUFSZ in1 read rd.2
    let out1 := un.1.1
    let outlen := un.1.2
    { ctl := .fall, st := ⟨c.write_tun tun_fd out1 outlen un.2, in1, out1⟩ }

/-- The `else` part of `if (i==0)` (lines 82-105): the tunnel branch, then
the DNS branch unless the tunnel branch ended in `continue`. -/
def ready_branch (c : Collab W) (GOTHELLO : Int) (tun_fd dns_fd : Int)
    (fds : fd_set) (s : Locals W) : IterOut W :=
  IterOut.seq (if FD_ISSET tun_fd fds then tun_branch c tun_fd s else skip s)
    (fun s1 => if FD_ISSET dns_fd fds then dns_branch c GOTHELLO tun_fd dns_fd s1 else skip s1)

/-- What follows `select` (lines 72-106), given its result `i` and the
descriptor set `fds` it left. -/
def after_select (c : Collab W) (GOTHELLO : Int) (tun_fd dns_fd : Int)
    (i : Int) (fds : fd_set) (s : Locals W) : IterOut W :=
  if i < 0 then
    if (c.running s.world).1 then
      { ctl := .ret 1, st := { s with world := c.warn "select" (c.running s.world).2 } }
    else
      { ctl := .ret 1, st := { s with world := (c.running s.world).2 } }
  else if i = 0 then
    if (c.dnsd_hasack s.world).1 then
      { ctl := .fall
        st := { s with world := c.dnsd_forceack dns_fd (c.dnsd_hasack s.world).2 } }
    else
      { ctl := .fall, st := { s with world := (c.dnsd_hasack s.world).2 } }
  else
    ready_branch c GOTHELLO tun_fd dns_fd fds s

/-- The timeout of lines 57-63. -/
def timeout_for (hasack : Bool) : timeval :=
  if hasack then { tv_sec := 0, tv_usec := 50000 } else { tv_sec := 1, tv_usec := 0 }

/-- The read set of lines 65-68. -/
def readfds_for (haspacket : Bool) (tun_fd dns_fd : Int) : fd_set :=
  FD_SET dns_fd (if !haspacket then FD_SET tun_fd FD_ZERO else FD_ZERO)

/-- One execution of the loop of `tunnel()`, from the test `while (running)`
to the end of the body (lines 56-107).  Finding `running` false is
`return 0` (line 109).  `select` leaves in `fds` those members that it found
readable. -/
def tunnel_iter (c : Collab W) (GOTHELLO : Int) (tun_fd dns_fd : Int)
    (s : Locals W) : IterOut W :=
  let r := c.running s.world
  if r.1 then
    let a := c.dnsd_hasack r.2
    let tv := timeout_for a.1
    let p := c.dnsd_haspacket a.2
    let fds := readfds_for p.1 tun_fd dns_fd
    let sel := c.select (MAX tun_fd dns_fd + 1) fds tv p.2
    let i := sel.1.1
    let fds1 := fds.filter (fun fd => decide (fd ∈ sel.1.2))
    after_select c GOTHELLO tun_fd dns_fd i fds1 { s with world := sel.2 }
  else
    { ctl := .ret 0, st := { s with world := r.2 } }

/-- Result of running the loop: the status returned (`none` while the loop
has not ended within the fuel) and the final state. -/
structure Run (W : Type) where
  ret : Option Int
  st : Locals W

/-- The function `tunnel(tun_fd, dns_fd)`, run for at most `fuel` iterations
(the final `while` test that ends the loop counts as one). -/
def tunnel (c : Collab W) (GOTHELLO : Int) (tun_fd dns_fd : Int) :
    Nat → Locals W → Run W
  | 0, s => { ret := none, st := s }
  | fuel + 1, s =>
    match (tunnel_iter c GOTHELLO tun_fd dns_fd s).ctl.status with
    | some r => { ret := some r, st := (tunnel_iter c GOTHELLO tun_fd dns_fd s).st }
    | none => tunnel c GOTHELLO tun_fd dns_fd fuel (tunnel_iter c GOTHELLO tun_fd dns_fd s).st

end Tunnel

/-! ## Tracing the calls -/

/-- One call made by `tunnel()` (or one read of the global `running`),
with its arguments and its result. -/
inductive Event where
  | running (r : Bool)
  | dnsd_hasack (r : Bool)
  | dnsd_haspacket (r : Bool)
  | select (nfds : Int) (readfds : fd_set) (tv : timeval) (ret : Int) (ready : List Int)
  | warn (msg : String)
  | dnsd_forceack (fd : Int)
  | read_tun (fd : Int) (len : Nat) (ret : Int)
  | compress2 (destLen : Int) (src : Buf) (srcLen : Int) (level : Int)
  | dnsd_queuepacket (buf : Buf) (len : Int)
  | dnsd_read (fd : Int) (len : Nat) (ret : Int)
  | uncompress (destLen : Int) (src : Buf) (srcLen : Int)
  | write_tun (fd : Int) (buf : Buf) (len : Int)
deriving DecidableEq, Repr

/-- A world that also keeps the trace of the calls made so far, each with
the world it was entered in. -/
structure Traced (W : Type) where
  world : W
  trace : List (W × Event)

/-- Record the call `e`, entered in the current world, and move to the
world `w1` it leaves. -/
def Traced.call {W : Type} (t : Traced W) (e : Event) (w1 : W) : Traced W :=
  { world := w1, trace := t.trace ++ [(t.world, e)] }

/-- The tracing collaborators: each function does what `c` does to the world
and records the call. -/
def traced {W : Type} (c : Collab W) : Collab (Traced W) where
  running t :=
    ((c.running t.world).1, t.call (.running (c.running t.world).1) (c.running t.world).2)
  dnsd_hasack t :=
    ((c.dnsd_hasack t.world).1,
      t.call (.dnsd_hasack (c.dnsd_hasack t.world).1) (c.dnsd_hasack t.world).2)
  dnsd_haspacket t :=
    ((c.dnsd_haspacket t.world).1,
      t.call (.dnsd_haspacket (c.dnsd_haspacket t.world).1) (c.dnsd_haspacket t.world).2)
  select nfds fds tv t :=
    ((c.select nfds fds tv t.world).1,
      t.call (.select nfds fds tv (c.select nfds fds tv t.world).1.1
          (c.select nfds fds tv t.world).1.2)
        (c.select nfds fds tv t.world).2)
  warn msg t := t.call (.warn msg) (c.warn msg t.world)
  dnsd_forceack fd t := t.call (.dnsd_forceack fd) (c.dnsd_forceack fd t.world)
  read_tun fd buf len t :=
    ((c.read_tun fd buf len t.world).1,
      t.call (.read_tun fd len (c.read_tun fd buf len t.world).1.1)
        (c.read_tun fd buf len t.world).2)
  compress2 dest destLen src srcLen level t :=
    ((c.compress2 dest destLen src srcLen level t.world).1,
      t.call (.compress2 destLen src srcLen level)
        (c.compress2 dest destLen src srcLen level t.world).2)
  dnsd_queuepacket buf len t :=
    t.call (.dnsd_queuepacket buf len) (c.dnsd_queuepacket buf len t.world)
  dnsd_read fd buf len t :=
    ((c.dnsd_read fd buf len t.world).1,
      t.call (.dnsd_read fd len (c.dnsd_read fd buf len t.world).1.1)
        (c.dnsd_read fd buf len t.world).2)
  uncompress dest destLen src srcLen t :=
    ((c.uncompress dest destLen src srcLen t.world).1,
      t.call (.uncompress destLen src srcLen) (c.uncompress dest destLen src srcLen t.world).2)
  write_tun fd buf len t := t.call (.write_tun fd buf len) (c.write_tun fd buf len t.world)

/-- The state `s` with the trace `tr` attached to its world. -/
def Locals.withTrace {W : Type} (s : Locals W) (tr : List (W × Event)) : Locals (Traced W) :=
  { world := { world := s.world, trace := tr }, inbuf := s.inbuf, outbuf := s.outbuf }

/-- The state `s` with an empty trace: the start of an observation. -/
def Locals.start {W : Type} (s : Locals W) : Locals (Traced W) := s.withTrace []

/-- The state without the trace. -/
def Locals.erase {W : Type} (s : Locals (Traced W)) : Locals W :=
  { world := s.world.world, inbuf := s.inbuf, outbuf := s.outbuf }

/-- The function an event is a call of. -/
inductive Call where
  | running | dnsd_hasack | dnsd_haspacket | select | warn | dnsd_forceack
  | read_tun | compress2 | dnsd_queuepacket | dnsd_read | uncompress | write_tun
deriving DecidableEq, Repr

/-- The function called in an event. -/
def Event.call : Event → Call
  | .running _ => .running
  | .dnsd_hasack _ => .dnsd_hasack
  | .dnsd_haspacket _ => .dnsd_haspacket
  | .select _ _ _ _ _ => .select
  | .warn _ => .warn
  | .dnsd_forceack _ => .dnsd_forceack
  | .read_tun _ _ _ => .read_tun
  | .compress2 _ _ _ _ => .compress2
  | .dnsd_queuepacket _ _ => .dnsd_queuepacket
  | .dnsd_read _ _ _ => .dnsd_read
  | .uncompress _ _ _ => .uncompress
  | .write_tun _ _ _ => .write_tun

/-- The calls made in a trace, by name. -/
def calls {W : Type} (l : List (W × Event)) : List Call := l.map (fun x => x.2.call)

/-- The worlds in which `dnsd_queuepacket` was entered right after a call of
`k`: after `compress2` for the enqueue of a frame (line 89), after
`dnsd_read` for the enqueue of the handshake reply (line 96). -/
def enqueuesAfter {W : Type} (k : Call) : List (W × Event) → List W
  | [] => []
  | [_] => []
  | x :: y :: rest =>
    (if x.2.call = k ∧ y.2.call = .dnsd_queuepacket then [y.1] else []) ++
      enqueuesAfter k (y :: rest)

/-- The model of the DNS channel's queued flag: `queued` reads the flag in a
world, `dnsd_haspacket()` returns it, and between the `dnsd_haspacket()` of
an iteration and the enqueue of the frame no call sets it (only
`dnsd_queuepacket` does; the DNS channel may clear it at any time). -/
structure FlagModel {W : Type} (c : Collab W) (queued : W → Bool) : Prop where
  haspacket_reads : ∀ w, (c.dnsd_haspacket w).1 = queued w
  haspacket_keeps : ∀ w, queued w = false → queued (c.dnsd_haspacket w).2 = false
  select_keeps : ∀ n fds tv w, queued w = false → queued (c.select n fds tv w).2 = false
  read_tun_keeps : ∀ fd buf len w, queued w = false → queued (c.read_tun fd buf len w).2 = false
  compress2_keeps : ∀ dst dlen src slen lvl w,
    queued w = false → queued (c.compress2 dst dlen src slen lvl w).2 = false

/-! ## A scripted world, for running the code on concrete inputs -/

/-- A world whose answers are scripted: the flag `running`, the DNS
channel's ack and queued flags, and the results of the successive calls of
`select`, `read_tun` and `dnsd_read`. -/
structure Sim where
  running : Bool
  ack : Bool
  queued : Bool
  /-- Each `select`: result, descriptors readable, and whether SIGINT
  arrived during the wait. -/
  selects : List (Int × List Int × Bool)
  tunReads : List (Int × Buf)
  /-- Each `dnsd_read`: result, bytes stored, and whether the DNS channel
  sent (and so dequeued) the queued packet while answering. -/
  dnsReads : List (Int × Buf × Bool)
deriving DecidableEq, Repr

/-- The collaborators over the scripted world.  `dnsd_queuepacket` sets the
queued flag; only the DNS channel clears it (in `dnsd_read`, when the script
says so).  `dnsd_forceack` clears the ack flag.  The codec is the identity
on the first `srcLen` bytes. -/
def simCollab : Collab Sim where
  running w := (w.running, w)
  dnsd_hasack w := (w.ack, w)
  dnsd_haspacket w := (w.queued, w)
  select _ _ _ w :=
    match w.selects with
    | [] => ((0, []), w)
    | (i, ready, sigint) :: rest =>
      ((i, ready), { w with selects := rest, running := w.running && !sigint })
  warn _ w := w
  dnsd_forceack _ w := { w with ack := false }
  read_tun _ buf _ w :=
    match w.tunReads with
    | [] => ((0, buf), w)
    | (n, data) :: rest => ((n, data ++ buf.drop data.length), { w with tunReads := rest })
  compress2 _ _ src srcLen _ w := ((src.take srcLen.toNat, srcLen), w)
  dnsd_queuepacket _ _ w := { w with queued := true }
  dnsd_read _ buf _ w :=
    match w.dnsReads with
    | [] => ((0, buf), w)
    | (n, data, sent) :: rest =>
      ((n, data ++ buf.drop data.length),
        { w with dnsReads := rest, queued := w.queued && !sent, ack := true })
  uncompress _ _ src srcLen w := ((src.take srcLen.toNat, srcLen), w)
  write_tun _ _ _ w := w

/-! ## `main()` -/

/-- What `main()` prints: the banner of `version()`, the text of `help()`,
the line of `usage()`, and the four diagnostics. -/
inductive Msg where
  | version
  | help
  | usage
  | run_as_root
  | no_such_user (name : String)
  | bad_mtu
  | could_not_switch (name : String)
deriving DecidableEq, Repr

/-- One call made by `main()`, with its arguments. -/
inductive SysCall where
  | printf (m : Msg)
  | geteuid
  | getuid
  | getpwnam (name : String)
  | open_tun
  | tun_setip (ip : String)
  | tun_setmtu (mtu : Int)
  | open_dnsd (domain : String)
  | chroot (dir : String)
  | chdir (dir : String)
  | err (status : Int) (arg : String)
  | seteuid (uid : Int)
  | setuid (uid : Int)
  | setgid (gid : Int)
  | daemon (nochdir noclose : Int)
  | umask (mask : Int)
  | alarm (seconds : Int)
  | signal_SIGINT
  | tunnel (tun_fd dns_fd : Int)
  | close_dnsd (fd : Int)
  | close_tun (fd : Int)
deriving DecidableEq, Repr

/-- What the system answers to `main()`, one field per call whose result the
code looks at.  `getpwnam` gives `(pw_uid, pw_gid)`, or `none` for `NULL`;
`geteuid_chroot` is the call inside `seteuid(geteuid())`; `tunnel` is the
status `tunnel()` returns, `none` when it never returns. -/
structure Sys where
  atoi : String → Int
  geteuid : Int
  getpwnam : String → Option (Int × Int)
  open_tun : Int
  tun_setip : String → Int
  tun_setmtu : Int → Int
  open_dnsd : String → Int
  chroot : String → Int
  chdir : String → Int
  geteuid_chroot : Int
  getuid : Int
  setgid : Int → Int
  setuid : Int → Int
  tunnel : Int → Int → Option Int

/-- The variables set by the option loop. -/
structure Config where
  username : Option String
  newroot : Option String
  foreground : Bool
  mtu : Int
deriving DecidableEq, Repr

/-- The initial values (lines 154-157). -/
def Config.init : Config :=
  { username := none, newroot := none, foreground := false, mtu := 1024 }

/-- A run of (part of) `main()`: the calls made, and the exit status of the
process once it has ended (`none`: still going, or never ending). -/
structure Out where
  trace : List SysCall
  status : Option Int
deriving DecidableEq, Repr

/-- The function `usage()`: print the usage line and `exit(2)`. -/
def usage : Out := { trace := [.printf .usage], status := some 2 }

/-- Sequential composition: the second part runs unless the process has
ended. -/
def Out.andThen (a : Out) (b : Out) : Out :=
  match a.status with
  | some st => { trace := a.trace, status := some st }
  | none => { trace := a.trace ++ b.trace, status := b.status }

/-- The loop `while ((choice = getopt(...)) != -1) switch(choice)` (lines
159-183), over the successive results `(choice, optarg)` of `getopt`: the
configuration, or the output of the `version()`, `help()` or `usage()` that
ended the process. -/
def getopt_loop (sys : Sys) : List (Char × String) → Config → Except Out Config
  | [], cfg => .ok cfg
  | (choice, optarg) :: rest, cfg =>
    if choice = 'v' then .error { trace := [.printf .version], status := some 0 }
    else if choice = 'f' then getopt_loop sys rest { cfg with foreground := true }
    else if choice = 'h' then .error { trace := [.printf .help], status := some 0 }
    else if choice = 'u' then getopt_loop sys rest { cfg with username := some optarg }
    else if choice = 't' then getopt_loop sys rest { cfg with newroot := some optarg }
    else if choice = 'm' then getopt_loop sys rest { cfg with mtu := sys.atoi optarg }
    else .error usage

/-- The block `if (newroot) { ... }` (lines 216-221). -/
def chroot_block (sys : Sys) (newroot : Option String) : Out :=
  match newroot with
  | none => { trace := [], status := none }
  | some dir =>
    if sys.chroot dir ≠ 0 then
      { trace := [.chroot dir, .err 1 dir], status := some 1 }
    else if sys.chdir "/" ≠ 0 then
      { trace := [.chroot dir, .chdir "/", .err 1 dir], status := some 1 }
    else
      { trace := [.chroot dir, .chdir "/", .geteuid, .seteuid sys.geteuid_chroot,
                  .getuid, .setuid sys.getuid],
        status := none }

/-- The block `if (!foreground) { ... }` (lines 223-227). -/
def daemon_block (foreground : Bool) : Out :=
  if !foreground then { trace := [.daemon 0 0, .umask 0, .alarm 0], status := none }
  else { trace := [], status := none }

/-- The block `if (username) { ... }` (lines 230-235); `pw` is the entry
found by `getpwnam`, as `(pw_uid, pw_gid)`. -/
def user_block (sys : Sys) (username : Option String) (pw : Int × Int) : Out :=
  match username with
  | none => { trace := [], status := none }
  | some name =>
    if sys.setgid pw.2 < 0 then
      ({ trace := [.setgid pw.2, .printf (.could_not_switch name)], status := none } : Out).andThen
        usage
    else if sys.setuid pw.1 < 0 then
      ({ trace := [.setgid pw.2, .setuid pw.1, .printf (.could_not_switch name)],
         status := none } : Out).andThen usage
    else
      { trace := [.setgid pw.2, .setuid pw.1], status := none }

/-- The call `tunnel(tun_fd, dnsd_fd)` and what follows it (lines 237-245):
the result of `tunnel` is dropped, both descriptors are closed, `return 0`. -/
def run_and_cleanup (sys : Sys) (tun_fd dnsd_fd : Int) : Out :=
  match sys.tunnel tun_fd dnsd_fd with
  | none => { trace := [.tunnel tun_fd dnsd_fd], status := none }
  | some _ =>
    { trace := [.tunnel tun_fd dnsd_fd, .close_dnsd dnsd_fd, .close_tun tun_fd],
      status := some 0 }

/-- Lines 209-245: acquisition of the two descriptors with the `goto
cleanup` exits, then chroot, daemon, signal handler, user switch, the
tunnel and the final cleanup. -/
def startup (sys : Sys) (cfg : Config) (pw : Int × Int) (ip domain : String) : Out :=
  if sys.open_tun = -1 then
    -- goto cleanup0
    { trace := [.open_tun], status := some 0 }
  else if sys.tun_setip ip ≠ 0 then
    -- goto cleanup1
    { trace := [.open_tun, .tun_setip ip, .close_tun sys.open_tun], status := some 0 }
  else if sys.tun_setmtu cfg.mtu ≠ 0 then
    -- goto cleanup1
    { trace := [.open_tun, .tun_setip ip, .tun_setmtu cfg.mtu, .close_tun sys.open_tun],
      status := some 0 }
  else if sys.open_dnsd domain = -1 then
    -- goto cleanup2
    { trace := [.open_tun, .tun_setip ip, .tun_setmtu cfg.mtu, .open_dnsd domain,
                .close_dnsd (sys.open_dnsd domain), .close_tun sys.open_tun],
      status := some 0 }
  else
    (((({ trace := [.open_tun, .tun_setip ip, .tun_setmtu cfg.mtu, .open_dnsd domain],
          status := none } : Out).andThen
      (chroot_block sys cfg.newroot)).andThen
      (daemon_block cfg.foreground)).andThen
      { trace := [.signal_SIGINT], status := none }).andThen
      ((user_block sys cfg.username pw).andThen
        (run_and_cleanup sys sys.open_tun (sys.open_dnsd domain)))

/-- Lines 188-207: the checks made before any resource is opened; the
result is the entry `pw` (unset, here `(0, 0)`, without `-u`), or the output
that ended the process. -/
def checks (sys : Sys) (cfg : Config) (argc : Nat) : Except Out (Int × Int) :=
  if sys.geteuid ≠ 0 then
    .error (({ trace := [.geteuid, .printf .run_as_root], status := none } : Out).andThen usage)
  else if argc ≠ 2 then
    .error (({ trace := [.geteuid], status := none } : Out).andThen usage)
  else
    match cfg.username with
    | none =>
      if cfg.mtu = 0 then
        .error (({ trace := [.geteuid, .printf .bad_mtu], status := none } : Out).andThen usage)
      else .ok (0, 0)
    | some name =>
      match sys.getpwnam name with
      | none =>
        .error (({ trace := [.geteuid, .getpwnam name, .printf (.no_such_user name)],
                   status := none } : Out).andThen usage)
      | some pw =>
        if cfg.mtu = 0 then
          .error (({ trace := [.geteuid, .getpwnam name, .printf .bad_mtu],
                     status := none } : Out).andThen usage)
        else .ok pw

/-- The calls of a passed `checks`. -/
def checks_trace (cfg : Config) : List SysCall :=
  match cfg.username with
  | none => [.geteuid]
  | some name => [.geteuid, .getpwnam name]

/-- The function `main(argc, argv)`: `opts` are the successive results of `getopt`, `args`
the arguments left after the options (`argv[0]`, `argv[1]` after line 186). -/
def main (sys : Sys) (opts : List (Char × String)) (args : List String) : Out :=
  match getopt_loop sys opts Config.init with
  | .error out => out
  | .ok cfg =>
    match checks sys cfg args.length with
    | .error out => out
    | .ok pw =>
      ({ trace := checks_trace cfg, status := none } : Out).andThen
        (startup sys cfg pw (args.getD 0 "") (args.getD 1 ""))

/-- The calls that change the root directory or an identity of the
process. -/
def SysCall.isPriv : SysCall → Bool
  | .chroot _ => true
  | .seteuid _ => true
  | .setuid _ => true
  | .setgid _ => true
  | _ => false

/-- The calls that close a resource. -/
def SysCall.isClose : SysCall → Bool
  | .close_dnsd _ => true
  | .close_tun _ => true
  | _ => false


/-! ## The possible traces of the blocks of the loop body

For a block started in state `s0`, these relations list the ways it can end,
the calls it then has made (each with the world it was entered in, as the
collaborators `c` produce them) and the state it leaves.  The theorems
`*_traced` below prove that the code, run over `traced c`, does exactly
that. -/

/-- Payload of the handshake reply: the ASCII bytes of `172.30.5.2-1023`. -/
def helloBytes : List Nat := "172.30.5.2-1023".toList.map Char.toNat

/-- The ways of the tunnel branch. -/
inductive TunShape {W : Type} (c : Collab W) (tun_fd : Int) (s0 : Locals W) :
    Ctl → List (W × Event) → Locals W → Prop
  | absorbed (r : Int) (buf : Buf) (w1 : W)
      (hrd : c.read_tun tun_fd s0.inbuf BUFSZ s0.world = ((r, buf), w1)) (h : r ≤ 0) :
      TunShape c tun_fd s0 .cont [(s0.world, .read_tun tun_fd BUFSZ r)] ⟨w1, buf, s0.outbuf⟩
  | frame (r : Int) (buf : Buf) (w1 : W)
      (hrd : c.read_tun tun_fd s0.inbuf BUFSZ s0.world = ((r, buf), w1)) (h : 0 < r)
      (out : Buf) (len : Int) (w2 : W)
      (hcp : c.compress2 s0.outbuf BUFSZ buf r 9 w1 = ((out, len), w2)) :
      TunShape c tun_fd s0 .fall
        [(s0.world, .read_tun tun_fd BUFSZ r), (w1, .compress2 BUFSZ buf r 9),
         (w2, .dnsd_queuepacket out len)]
        ⟨c.dnsd_queuepacket out len w2, buf, out⟩

/-- The ways of the DNS branch. -/
inductive DnsShape {W : Type} (c : Collab W) (GOTHELLO tun_fd dns_fd : Int) (s0 : Locals W) :
    Ctl → List (W × Event) → Locals W → Prop
  | absorbed (r : Int) (buf : Buf) (w1 : W)
      (hrd : c.dnsd_read dns_fd s0.inbuf BUFSZ s0.world = ((r, buf), w1))
      (h : r ≤ 0) (hG : r ≠ GOTHELLO) :
      DnsShape c GOTHELLO tun_fd dns_fd s0 .cont
        [(s0.world, .dnsd_read dns_fd BUFSZ r)] ⟨w1, buf, s0.outbuf⟩
  | hello (buf : Buf) (w1 : W)
      (hrd : c.dnsd_read dns_fd s0.inbuf BUFSZ s0.world = ((GOTHELLO, buf), w1))
      (h : GOTHELLO ≤ 0) (reply : Buf)
      (hrep : reply = (snprintf buf BUFSZ (fmt_s_d "172.30.5.2" 1023)).2)
      (hb : reply.take 15 = helloBytes) :
      DnsShape c GOTHELLO tun_fd dns_fd s0 .cont
        [(s0.world, .dnsd_read dns_fd BUFSZ GOTHELLO), (w1, .dnsd_queuepacket reply 15)]
        ⟨c.dnsd_queuepacket reply 15 w1, reply, s0.outbuf⟩
  | data (r : Int) (buf : Buf) (w1 : W)
      (hrd : c.dnsd_read dns_fd s0.inbuf BUFSZ s0.world = ((r, buf), w1)) (h : 0 < r)
      (out : Buf) (len : Int) (w2 : W)
      (hun : c.uncompress s0.outbuf BUFSZ buf r w1 = ((out, len), w2)) :
      DnsShape c GOTHELLO tun_fd dns_fd s0 .fall
        [(s0.world, .dnsd_read dns_fd BUFSZ r), (w1, .uncompress BUFSZ buf r),
         (w2, .write_tun tun_fd out len)]
        ⟨c.write_tun tun_fd out len w2, buf, out⟩

/-- The ways of the code after a `select` that reported readiness, for the
descriptor set `fds` that `select` left. -/
inductive ReadyShape {W : Type} (c : Collab W) (GOTHELLO tun_fd dns_fd : Int) (fds : fd_set)
    (s0 : Locals W) : Ctl → List (W × Event) → Locals W → Prop
  | idle (ht : tun_fd ∉ fds) (hd : dns_fd ∉ fds) :
      ReadyShape c GOTHELLO tun_fd dns_fd fds s0 .fall [] s0
  | tun_cont (ht : tun_fd ∈ fds) (l : List (W × Event)) (s1 : Locals W)
      (h : TunShape c tun_fd s0 .cont l s1) :
      ReadyShape c GOTHELLO tun_fd dns_fd fds s0 .cont l s1
  | tun_only (ht : tun_fd ∈ fds) (hd : dns_fd ∉ fds) (l : List (W × Event)) (s1 : Locals W)
      (h : TunShape c tun_fd s0 .fall l s1) :
      ReadyShape c GOTHELLO tun_fd dns_fd fds s0 .fall l s1
  | dns_only (ht : tun_fd ∉ fds) (hd : dns_fd ∈ fds) (k : Ctl) (l : List (W × Event))
      (s1 : Locals W) (h : DnsShape c GOTHELLO tun_fd dns_fd s0 k l s1) :
      ReadyShape c GOTHELLO tun_fd dns_fd fds s0 k l s1
  | both (ht : tun_fd ∈ fds) (hd : dns_fd ∈ fds) (l1 : List (W × Event)) (s1 : Locals W)
      (h1 : TunShape c tun_fd s0 .fall l1 s1) (k : Ctl) (l2 : List (W × Event))
      (s2 : Locals W) (h2 : DnsShape c GOTHELLO tun_fd dns_fd s1 k l2 s2) :
      ReadyShape c GOTHELLO tun_fd dns_fd fds s0 k (l1 ++ l2) s2

/-- The ways of the code after `select`, for the result `i` of `select` and
the descriptor set `fds` it left. -/
inductive AfterShape {W : Type} (c : Collab W) (GOTHELLO tun_fd dns_fd : Int) (i : Int)
    (fds : fd_set) (s0 : Locals W) : Ctl → List (W × Event) → Locals W → Prop
  | failed_warn (h : i < 0) (w1 : W) (hr : c.running s0.world = (true, w1)) :
      AfterShape c GOTHELLO tun_fd dns_fd i fds s0 (.ret 1)
        [(s0.world, .running true), (w1, .warn "select")]
        { s0 with world := c.warn "select" w1 }
  | failed_quiet (h : i < 0) (w1 : W) (hr : c.running s0.world = (false, w1)) :
      AfterShape c GOTHELLO tun_fd dns_fd i fds s0 (.ret 1)
        [(s0.world, .running false)] { s0 with world := w1 }
  | timeout_ack (h : i = 0) (w1 : W) (ha : c.dnsd_hasack s0.world = (true, w1)) :
      AfterShape c GOTHELLO tun_fd dns_fd i fds s0 .fall
        [(s0.world, .dnsd_hasack true), (w1, .dnsd_forceack dns_fd)]
        { s0 with world := c.dnsd_forceack dns_fd w1 }
  | timeout_idle (h : i = 0) (w1 : W) (ha : c.dnsd_hasack s0.world = (false, w1)) :
      AfterShape c GOTHELLO tun_fd dns_fd i fds s0 .fall
        [(s0.world, .dnsd_hasack false)] { s0 with world := w1 }
  | ready (h : 0 < i) (k : Ctl) (l : List (W × Event)) (s1 : Locals W)
      (hr : ReadyShape c GOTHELLO tun_fd dns_fd fds s0 k l s1) :
      AfterShape c GOTHELLO tun_fd dns_fd i fds s0 k l s1

/-- The ways of one execution of the loop. -/
inductive IterShape {W : Type} (c : Collab W) (GOTHELLO tun_fd dns_fd : Int) (s0 : Locals W) :
    Ctl → List (W × Event) → Locals W → Prop
  | stopped (w1 : W) (hr : c.running s0.world = (false, w1)) :
      IterShape c GOTHELLO tun_fd dns_fd s0 (.ret 0)
        [(s0.world, .running false)] { s0 with world := w1 }
  | entered (w1 : W) (hr : c.running s0.world = (true, w1))
      (a : Bool) (w2 : W) (ha : c.dnsd_hasack w1 = (a, w2))
      (p : Bool) (w3 : W) (hp : c.dnsd_haspacket w2 = (p, w3))
      (i : Int) (ready : List Int) (w4 : W)
      (hs : c.select (MAX tun_fd dns_fd + 1) (readfds_for p tun_fd dns_fd) (timeout_for a) w3 =
        ((i, ready), w4))
      (k : Ctl) (tail : List (W × Event)) (s1 : Locals W)
      (h : AfterShape c GOTHELLO tun_fd dns_fd i
        ((readfds_for p tun_fd dns_fd).filter (fun fd => decide (fd ∈ ready)))
        { s0 with world := w4 } k tail s1) :
      IterShape c GOTHELLO tun_fd dns_fd s0 k
        ((s0.world, .running true) :: (w1, .dnsd_hasack a) :: (w2, .dnsd_haspacket p) ::
          (w3, .select (MAX tun_fd dns_fd + 1) (readfds_for p tun_fd dns_fd) (timeout_for a)
            i ready) :: tail)
        s1

/-- The sequences of calls the DNS branch can make. -/
def dnsCalls : List (List Call) :=
  [[.dnsd_read], [.dnsd_read, .dnsd_queuepacket], [.dnsd_read, .uncompress, .write_tun]]

/-- The sequences of calls that can follow a `select` that reported
readiness. -/
def readyCalls : List (List Call) :=
  [[], [.read_tun], [.read_tun, .compress2, .dnsd_queuepacket]] ++ dnsCalls ++
    dnsCalls.map (fun d => [.read_tun, .compress2, .dnsd_queuepacket] ++ d)

/-- The sequences of calls that can follow `select`. -/
def afterCalls : List (List Call) :=
  [[.running, .warn], [.running], [.dnsd_hasack, .dnsd_forceack], [.dnsd_hasack]] ++ readyCalls
/-! ## Concrete inputs -/

/-- The value taken for `GOTHELLO` (from `dns.h`) in the concrete runs. -/
def simHELLO : Int := -2

/-- A packet is already queued; `select` reports the DNS descriptor (4)
readable; `dnsd_read` returns `GOTHELLO` and the DNS channel has not sent
the queued packet. -/
def sim_hello_queued : Sim :=
  { running := true, ack := false, queued := true,
    selects := [(1, [4], false)], tunReads := [], dnsReads := [(simHELLO, [], false)] }

/-- Nothing is queued; `select` reports both descriptors (3 and 4)
readable; `read_tun` returns a 3-byte frame; `dnsd_read` returns `GOTHELLO`
and the DNS channel has not sent the packet queued a moment before. -/
def sim_both_ready : Sim :=
  { running := true, ack := false, queued := false,
    selects := [(2, [3, 4], false)], tunReads := [(3, [69, 0, 0])],
    dnsReads := [(simHELLO, [], false)] }

/-- SIGINT arrives during the wait: `select` returns -1 and `running` is
false afterwards. -/
def sim_sigint : Sim :=
  { running := true, ack := false, queued := false,
    selects := [(-1, [], true)], tunReads := [], dnsReads := [] }

/-- The wait fails for another reason: `select` returns -1 and `running` is
still true. -/
def sim_select_fails : Sim :=
  { running := true, ack := false, queued := false,
    selects := [(-1, [], false)], tunReads := [], dnsReads := [] }

/-- An ack is pending and nothing arrives: `select` returns 0. -/
def sim_idle_ack : Sim :=
  { running := true, ack := true, queued := false,
    selects := [(0, [], false)], tunReads := [], dnsReads := [] }

/-- The tunnel descriptor (3) is reported readable and `read_tun` returns
-1; then SIGINT arrives during the next wait. -/
def sim_tun_error : Sim :=
  { running := true, ack := false, queued := false,
    selects := [(1, [3], false), (-1, [], true)], tunReads := [(-1, [])], dnsReads := [] }

/-- The DNS descriptor (4) is reported readable and `dnsd_read` returns 0
(not `GOTHELLO`). -/
def sim_dns_empty : Sim :=
  { running := true, ack := false, queued := false,
    selects := [(1, [4], false)], tunReads := [], dnsReads := [(0, [], false)] }

/-- The flag `running` is already false. -/
def sim_stopped : Sim :=
  { running := false, ack := false, queued := false,
    selects := [], tunReads := [], dnsReads := [] }

/-- A system in which every call of `main()` succeeds for a process started
by root: descriptors 3 and 4, user entry `(pw_uid, pw_gid) = (1000, 100)`,
and a `tunnel()` that returns `status`. -/
def sysRoot (status : Option Int) : Sys where
  atoi _ := 1200
  geteuid := 0
  getpwnam _ := some (1000, 100)
  open_tun := 3
  tun_setip _ := 0
  tun_setmtu _ := 0
  open_dnsd _ := 4
  chroot _ := 0
  chdir _ := 0
  geteuid_chroot := 0
  getuid := 0
  setgid _ := 0
  setuid _ := 0
  tunnel _ _ := status

/-- The same system, except that `open_dnsd` fails. -/
def sysDnsFails : Sys := { sysRoot (some 0) with open_dnsd := fun _ => -1 }

/-- The world in which `sim_hello_queued` enters `dnsd_read`: the scripted
`select` has been consumed. -/
def sim_hello_queued_read : Sim := { sim_hello_queued with selects := [] }

/-- The world in which `sim_tun_error` enters `read_tun`: the first scripted
`select` has been consumed. -/
def sim_tun_error_read : Sim := { sim_tun_error with selects := [(-1, [], true)] }

/-- The world in which `sim_dns_empty` enters `dnsd_read`: the scripted
`select` has been consumed. -/
def sim_dns_empty_read : Sim := { sim_dns_empty with selects := [] }

/-- The handshake reply as `snprintf` leaves it in `in`: the 15 bytes of
`172.30.5.2-1023` and the terminating NUL. -/
def helloReply : Buf := [49, 55, 50, 46, 51, 48, 46, 53, 46, 50, 45, 49, 48, 50, 51, 0]

/-- The observed execution of the loop from `sim_hello_queued`. -/
def iter_hello_queued : IterOut (Traced Sim) :=
  tunnel_iter (traced simCollab) simHELLO 3 4 (Locals.start ⟨sim_hello_queued, [], []⟩)

/-- The observed execution of the loop from `sim_idle_ack`. -/
def iter_idle_ack : IterOut (Traced Sim) :=
  tunnel_iter (traced simCollab) simHELLO 3 4 (Locals.start ⟨sim_idle_ack, [], []⟩)

/-- The observed execution of the loop from `sim_tun_error`. -/
def iter_tun_error : IterOut (Traced Sim) :=
  tunnel_iter (traced simCollab) simHELLO 3 4 (Locals.start ⟨sim_tun_error, [], []⟩)

/-- The observed execution of the loop from `sim_dns_empty`. -/
def iter_dns_empty : IterOut (Traced Sim) :=
  tunnel_iter (traced simCollab) simHELLO 3 4 (Locals.start ⟨sim_dns_empty, [], []⟩)

/-- The observed run, of at most `fuel` iterations, from the world `w`. -/
def simRun (fuel : Nat) (w : Sim) : Run (Traced Sim) :=
  tunnel (traced simCollab) simHELLO 3 4 fuel (Locals.start ⟨w, [], []⟩)

/-! ## The code, run over the tracing collaborators -/

section Blocks

variable {W : Type}

theorem traced_running (c : Collab W) (t : Traced W) :
    (traced c).running t =
      ((c.running t.world).1, t.call (.running (c.running t.world).1) (c.running t.world).2) :=
  rfl

theorem traced_dnsd_hasack (c : Collab W) (t : Traced W) :
    (traced c).dnsd_hasack t =
      ((c.dnsd_hasack t.world).1,
        t.call (.dnsd_hasack (c.dnsd_hasack t.world).1) (c.dnsd_hasack t.world).2) :=
  rfl

theorem traced_dnsd_haspacket (c : Collab W) (t : Traced W) :
    (traced c).dnsd_haspacket t =
      ((c.dnsd_haspacket t.world).1,
        t.call (.dnsd_haspacket (c.dnsd_haspacket t.world).1) (c.dnsd_haspacket t.world).2) :=
  rfl

theorem traced_select (c : Collab W) (nfds : Int) (fds : fd_set) (tv : timeval)
    (t : Traced W) :
    (traced c).select nfds fds tv t =
      ((c.select nfds fds tv t.world).1,
        t.call (.select nfds fds tv (c.select nfds fds tv t.world).1.1
            (c.select nfds fds tv t.world).1.2)
          (c.select nfds fds tv t.world).2) :=
  rfl

theorem traced_warn (c : Collab W) (msg : String) (t : Traced W) :
    (traced c).warn msg t = t.call (.warn msg) (c.warn msg t.world) :=
  rfl

theorem traced_dnsd_forceack (c : Collab W) (fd : Int) (t : Traced W) :
    (traced c).dnsd_forceack fd t = t.call (.dnsd_forceack fd) (c.dnsd_forceack fd t.world) :=
  rfl

theorem traced_read_tun (c : Collab W) (fd : Int) (buf : Buf) (len : Nat) (t : Traced W) :
    (traced c).read_tun fd buf len t =
      ((c.read_tun fd buf len t.world).1,
        t.call (.read_tun fd len (c.read_tun fd buf len t.world).1.1)
          (c.read_tun fd buf len t.world).2) :=
  rfl

theorem traced_compress2 (c : Collab W) (dest : Buf) (destLen : Int) (src : Buf)
    (srcLen level : Int) (t : Traced W) :
    (traced c).compress2 dest destLen src srcLen level t =
      ((c.compress2 dest destLen src srcLen level t.world).1,
        t.call (.compress2 destLen src srcLen level)
          (c.compress2 dest destLen src srcLen level t.world).2) :=
  rfl

theorem traced_dnsd_queuepacket (c : Collab W) (buf : Buf) (len : Int) (t : Traced W) :
    (traced c).dnsd_queuepacket buf len t =
      t.call (.dnsd_queuepacket buf len) (c.dnsd_queuepacket buf len t.world) :=
  rfl

theorem traced_dnsd_read (c : Collab W) (fd : Int) (buf : Buf) (len : Nat) (t : Traced W) :
    (traced c).dnsd_read fd buf len t =
      ((c.dnsd_read fd buf len t.world).1,
        t.call (.dnsd_read fd len (c.dnsd_read fd buf len t.world).1.1)
          (c.dnsd_read fd buf len t.world).2) :=
  rfl

theorem traced_uncompress (c : Collab W) (dest : Buf) (destLen : Int) (src : Buf)
    (srcLen : Int) (t : Traced W) :
    (traced c).uncompress dest destLen src srcLen t =
      ((c.uncompress dest destLen src srcLen t.world).1,
        t.call (.uncompress destLen src srcLen)
          (c.uncompress dest destLen src srcLen t.world).2) :=
  rfl

theorem traced_write_tun (c : Collab W) (fd : Int) (buf : Buf) (len : Int) (t : Traced W) :
    (traced c).write_tun fd buf len t =
      t.call (.write_tun fd buf len) (c.write_tun fd buf len t.world) :=
  rfl

theorem fmt_hello : fmt_s_d "172.30.5.2" 1023 = helloBytes := by decide

theorem snprintf_hello (buf : Buf) :
    (snprintf buf BUFSZ (fmt_s_d "172.30.5.2" 1023)).1 = 15 ∧
    (snprintf buf BUFSZ (fmt_s_d "172.30.5.2" 1023)).2.take 15 = helloBytes := by
  rw [fmt_hello]
  constructor
  · rfl
  · simp [snprintf, BUFSZ, helloBytes]

theorem tun_branch_traced (c : Collab W) (tun_fd : Int) (s : Locals W)
    (tr : List (W × Event)) :
    ∃ (k : Ctl) (l : List (W × Event)) (s1 : Locals W), TunShape c tun_fd s k l s1 ∧
      tun_branch (traced c) tun_fd (s.withTrace tr) = ⟨k, s1.withTrace (tr ++ l)⟩ := by
  by_cases h : (c.read_tun tun_fd s.inbuf BUFSZ s.world).1.1 ≤ 0
  · refine ⟨_, _, _, .absorbed _ _ _ rfl h, ?_⟩
    simp [tun_branch, traced_read_tun, traced_compress2, traced_dnsd_queuepacket, Traced.call, Locals.withTrace, h]
  · refine ⟨_, _, _, .frame _ _ _ rfl (not_le.mp h) _ _ _ rfl, ?_⟩
    simp [tun_branch, traced_read_tun, traced_compress2, traced_dnsd_queuepacket, Traced.call, Locals.withTrace, h]

theorem dns_branch_traced (c : Collab W) (G tun_fd dns_fd : Int) (s : Locals W)
    (tr : List (W × Event)) :
    ∃ (k : Ctl) (l : List (W × Event)) (s1 : Locals W),
      DnsShape c G tun_fd dns_fd s k l s1 ∧
      dns_branch (traced c) G tun_fd dns_fd (s.withTrace tr) = ⟨k, s1.withTrace (tr ++ l)⟩ := by
  by_cases h : (c.dnsd_read dns_fd s.inbuf BUFSZ s.world).1.1 ≤ 0
  · by_cases hG : (c.dnsd_read dns_fd s.inbuf BUFSZ s.world).1.1 = G
    · have hrd : c.dnsd_read dns_fd s.inbuf BUFSZ s.world =
          ((G, (c.dnsd_read dns_fd s.inbuf BUFSZ s.world).1.2),
            (c.dnsd_read dns_fd s.inbuf BUFSZ s.world).2) :=
        Prod.ext (Prod.ext hG rfl) rfl
      have hG0 : G ≤ 0 := hG ▸ h
      refine ⟨_, _, _, .hello _ _ hrd hG0
        (snprintf (c.dnsd_read dns_fd s.inbuf BUFSZ s.world).1.2 BUFSZ
          (fmt_s_d "172.30.5.2" 1023)).2 rfl (snprintf_hello _).2, ?_⟩
      simp [dns_branch, traced_dnsd_read, traced_uncompress, traced_write_tun,
        traced_dnsd_queuepacket, Traced.call, Locals.withTrace, hG, hG0, (snprintf_hello _).1]
    · refine ⟨_, _, _, .absorbed _ _ _ rfl h hG, ?_⟩
      simp [dns_branch, traced_dnsd_read, traced_uncompress, traced_write_tun,
        traced_dnsd_queuepacket, Traced.call, Locals.withTrace, h, hG]
  · refine ⟨_, _, _, .data _ _ _ rfl (not_le.mp h) _ _ _ rfl, ?_⟩
    simp [dns_branch, traced_dnsd_read, traced_uncompress, traced_write_tun,
        traced_dnsd_queuepacket, Traced.call, Locals.withTrace, h]

theorem ready_branch_traced (c : Collab W) (G tun_fd dns_fd : Int) (fds : fd_set)
    (s : Locals W) (tr : List (W × Event)) :
    ∃ (k : Ctl) (l : List (W × Event)) (s1 : Locals W),
      ReadyShape c G tun_fd dns_fd fds s k l s1 ∧
      ready_branch (traced c) G tun_fd dns_fd fds (s.withTrace tr) =
        ⟨k, s1.withTrace (tr ++ l)⟩ := by
  unfold ready_branch
  by_cases ht : tun_fd ∈ fds
  · obtain ⟨k, l, s1, hT, hE⟩ := tun_branch_traced c tun_fd s tr
    simp only [FD_ISSET, ht, decide_True, if_true, hE]
    cases hT with
    | absorbed r buf w1 hrd h =>
      exact ⟨_, _, _, .tun_cont ht _ _ (.absorbed r buf w1 hrd h), rfl⟩
    | frame r buf w1 hrd h out len w2 hcp =>
      by_cases hd : dns_fd ∈ fds
      · obtain ⟨k2, l2, s2, hD, hE2⟩ := dns_branch_traced c G tun_fd dns_fd
          ⟨c.dnsd_queuepacket out len w2, buf, out⟩
          (tr ++ [(s.world, .read_tun tun_fd BUFSZ r), (w1, .compress2 BUFSZ buf r 9),
            (w2, .dnsd_queuepacket out len)])
        refine ⟨_, _, _, .both ht hd _ _ (.frame r buf w1 hrd h out len w2 hcp) _ _ _ hD, ?_⟩
        simp only [IterOut.seq, hd, decide_True, if_true, hE2, List.append_assoc]
      · refine ⟨_, _, _, .tun_only ht hd _ _ (.frame r buf w1 hrd h out len w2 hcp), ?_⟩
        simp [IterOut.seq, hd, skip]
  · by_cases hd : dns_fd ∈ fds
    · obtain ⟨k2, l2, s2, hD, hE2⟩ := dns_branch_traced c G tun_fd dns_fd s tr
      refine ⟨_, _, _, .dns_only ht hd _ _ _ hD, ?_⟩
      simp [FD_ISSET, ht, hd, IterOut.seq, skip, hE2]
    · refine ⟨_, _, _, .idle ht hd, ?_⟩
      simp [FD_ISSET, ht, hd, IterOut.seq, skip]

theorem after_select_traced (c : Collab W) (G tun_fd dns_fd : Int) (i : Int) (fds : fd_set)
    (s : Locals W) (tr : List (W × Event)) :
    ∃ (k : Ctl) (l : List (W × Event)) (s1 : Locals W),
      AfterShape c G tun_fd dns_fd i fds s k l s1 ∧
      after_select (traced c) G tun_fd dns_fd i fds (s.withTrace tr) =
        ⟨k, s1.withTrace (tr ++ l)⟩ := by
  by_cases h1 : i < 0
  · cases hb : (c.running s.world).1 with
    | true =>
      have hr : c.running s.world = (true, (c.running s.world).2) := Prod.ext hb rfl
      refine ⟨_, _, _, .failed_warn h1 _ hr, ?_⟩
      simp [after_select, traced_running, traced_warn, traced_dnsd_hasack,
          traced_dnsd_forceack, Traced.call, Locals.withTrace, h1, hb]
    | false =>
      have hr : c.running s.world = (false, (c.running s.world).2) := Prod.ext hb rfl
      refine ⟨_, _, _, .failed_quiet h1 _ hr, ?_⟩
      simp [after_select, traced_running, traced_warn, traced_dnsd_hasack,
          traced_dnsd_forceack, Traced.call, Locals.withTrace, h1, hb]
  · by_cases h2 : i = 0
    · cases hb : (c.dnsd_hasack s.world).1 with
      | true =>
        have hr : c.dnsd_hasack s.world = (true, (c.dnsd_hasack s.world).2) := Prod.ext hb rfl
        refine ⟨_, _, _, .timeout_ack h2 _ hr, ?_⟩
        simp [after_select, traced_running, traced_warn, traced_dnsd_hasack,
          traced_dnsd_forceack, Traced.call, Locals.withTrace, h2, hb]
      | false =>
        have hr : c.dnsd_hasack s.world = (false, (c.dnsd_hasack s.world).2) := Prod.ext hb rfl
        refine ⟨_, _, _, .timeout_idle h2 _ hr, ?_⟩
        simp [after_select, traced_running, traced_warn, traced_dnsd_hasack,
          traced_dnsd_forceack, Traced.call, Locals.withTrace, h2, hb]
    · obtain ⟨k, l, s1, hR, hE⟩ := ready_branch_traced c G tun_fd dns_fd fds s tr
      refine ⟨_, _, _, .ready (lt_of_le_of_ne (not_lt.mp h1) (Ne.symm h2)) _ _ _ hR, ?_⟩
      simp only [after_select, h1, h2, if_false, hE]

/-- One execution of the loop over the tracing collaborators, started in
state `s` with trace `tr`, ends as `IterShape` says, with the calls made
appended to `tr`. -/
theorem tunnel_iter_traced (c : Collab W) (G tun_fd dns_fd : Int) (s : Locals W)
    (tr : List (W × Event)) :
    ∃ (k : Ctl) (l : List (W × Event)) (s1 : Locals W),
      IterShape c G tun_fd dns_fd s k l s1 ∧
      tunnel_iter (traced c) G tun_fd dns_fd (s.withTrace tr) =
        ⟨k, s1.withTrace (tr ++ l)⟩ := by
  rcases hr : c.running s.world with ⟨b, w1⟩
  cases b with
  | false =>
    refine ⟨_, _, _, .stopped w1 hr, ?_⟩
    simp [tunnel_iter, traced_running, Traced.call, Locals.withTrace, hr]
  | true =>
    rcases ha : c.dnsd_hasack w1 with ⟨a, w2⟩
    rcases hp : c.dnsd_haspacket w2 with ⟨p, w3⟩
    rcases hs : c.select (MAX tun_fd dns_fd + 1) (readfds_for p tun_fd dns_fd) (timeout_for a)
      w3 with ⟨⟨i, ready⟩, w4⟩
    obtain ⟨k, l, s1, hA, hE⟩ := after_select_traced c G tun_fd dns_fd i
      ((readfds_for p tun_fd dns_fd).filter (fun fd => decide (fd ∈ ready)))
      { s with world := w4 }
      (tr ++ [(s.world, .running true), (w1, .dnsd_hasack a), (w2, .dnsd_haspacket p),
        (w3, .select (MAX tun_fd dns_fd + 1) (readfds_for p tun_fd dns_fd) (timeout_for a)
          i ready)])
    refine ⟨_, _, _, .entered w1 hr a w2 ha p w3 hp i ready w4 hs k l s1 hA, ?_⟩
    simp only [Locals.withTrace] at hE
    simp only [tunnel_iter, traced_running, traced_dnsd_hasack, traced_dnsd_haspacket,
      traced_select, Traced.call, Locals.withTrace, hr, ha, hp, hs, if_true,
      List.append_assoc, List.cons_append, List.nil_append]
    simp only [List.append_assoc, List.cons_append, List.nil_append] at hE
    rw [hE]

end Blocks

section CallSequences

variable {W : Type}

theorem call_mem_calls {x : W × Event} {l : List (W × Event)} (h : x ∈ l) :
    x.2.call ∈ calls l :=
  List.mem_map_of_mem (fun x => x.2.call) h

theorem dns_calls_mem {c : Collab W} {G tun_fd dns_fd : Int} {s0 s1 : Locals W} {k : Ctl}
    {l : List (W × Event)} (h : DnsShape c G tun_fd dns_fd s0 k l s1) : calls l ∈ dnsCalls := by
  cases h <;> simp [calls, Event.call, dnsCalls]

theorem ready_calls_mem {c : Collab W} {G tun_fd dns_fd : Int} {fds : fd_set}
    {s0 s1 : Locals W} {k : Ctl} {l : List (W × Event)}
    (h : ReadyShape c G tun_fd dns_fd fds s0 k l s1) : calls l ∈ readyCalls := by
  cases h with
  | idle => simp [calls, readyCalls]
  | tun_cont ht l s1 h => cases h; simp [calls, Event.call, readyCalls]
  | tun_only ht hd l s1 h => cases h; simp [calls, Event.call, readyCalls]
  | dns_only ht hd k l s1 h =>
    have := dns_calls_mem h
    simp only [readyCalls, List.mem_append]
    exact Or.inl (Or.inr this)
  | both ht hd l1 s1 h1 k l2 s2 h2 =>
    cases h1
    have := dns_calls_mem h2
    simp only [readyCalls, List.mem_append, List.mem_map]
    refine Or.inr ⟨_, this, ?_⟩
    simp [calls, Event.call]

theorem after_calls_mem {c : Collab W} {G tun_fd dns_fd i : Int} {fds : fd_set}
    {s0 s1 : Locals W} {k : Ctl} {l : List (W × Event)}
    (h : AfterShape c G tun_fd dns_fd i fds s0 k l s1) : calls l ∈ afterCalls := by
  cases h with
  | ready h k l s1 hr =>
    simp only [afterCalls, List.mem_append]
    exact Or.inr (ready_calls_mem hr)
  | _ => simp [calls, Event.call, afterCalls]

/-- After `select`, an iteration calls neither `select` nor `dnsd_haspacket`. -/
theorem after_no_wait {c : Collab W} {G tun_fd dns_fd i : Int} {fds : fd_set}
    {s0 s1 : Locals W} {k : Ctl} {l : List (W × Event)}
    (h : AfterShape c G tun_fd dns_fd i fds s0 k l s1) :
    ∀ x ∈ l, x.2.call ≠ .select ∧ x.2.call ≠ .dnsd_haspacket := by
  intro x hx
  have key : ∀ cs ∈ afterCalls, ∀ y ∈ cs, y ≠ Call.select ∧ y ≠ Call.dnsd_haspacket := by
    decide
  exact key _ (after_calls_mem h) _ (call_mem_calls hx)

/-- Without the tunnel descriptor in the set left by `select`, no
`read_tun` follows. -/
theorem after_no_read_tun {c : Collab W} {G tun_fd dns_fd i : Int} {fds : fd_set}
    {s0 s1 : Locals W} {k : Ctl} {l : List (W × Event)}
    (h : AfterShape c G tun_fd dns_fd i fds s0 k l s1) (ht : tun_fd ∉ fds) :
    ∀ x ∈ l, x.2.call ≠ .read_tun := by
  intro x hx
  cases h with
  | ready h k l s1 hr =>
    cases hr with
    | idle => simp at hx
    | tun_cont ht1 => exact absurd ht1 ht
    | tun_only ht1 => exact absurd ht1 ht
    | both ht1 => exact absurd ht1 ht
    | dns_only _ hd k l s1 hs =>
      have key : ∀ cs ∈ dnsCalls, ∀ y ∈ cs, y ≠ Call.read_tun := by decide
      exact key _ (dns_calls_mem hs) _ (call_mem_calls hx)
  | failed_warn => simp at hx; rcases hx with hx | hx <;> simp [hx, Event.call]
  | failed_quiet => simp at hx; simp [hx, Event.call]
  | timeout_ack => simp at hx; rcases hx with hx | hx <;> simp [hx, Event.call]
  | timeout_idle => simp at hx; simp [hx, Event.call]

theorem mem_readfds_tun (p : Bool) (tun_fd dns_fd : Int) (h : tun_fd ≠ dns_fd) :
    tun_fd ∈ readfds_for p tun_fd dns_fd ↔ p = false := by
  cases p <;> simp [readfds_for, FD_SET, FD_ZERO, h]

theorem mem_readfds_dns (p : Bool) (tun_fd dns_fd : Int) :
    dns_fd ∈ readfds_for p tun_fd dns_fd := by
  simp [readfds_for, FD_SET]

end CallSequences

/-! ## The claims about `tunnel()` -/

section TunnelClaims

variable {W : Type}

/-- C1 (backpressure): for all collaborators `c` and every state `s` in
which an execution of the loop of `tunnel()` starts with `running` true, the
calls it makes begin with `running`, `dnsd_hasack`, `dnsd_haspacket` and
`select`; the set handed to `select` contains the tunnel descriptor exactly
when that `dnsd_haspacket()` returned false, and always contains the DNS
descriptor; this is the only `select` and the only `dnsd_haspacket` of the
iteration; and when `dnsd_haspacket()` returned true the iteration makes no
`read_tun`.  (When `running` is false the only call is that read.) -/
theorem C1_backpressure (c : Collab W) (G tun_fd dns_fd : Int) (hfd : tun_fd ≠ dns_fd)
    (s : Locals W) :
    (∃ w1 : W, c.running s.world = (false, w1) ∧
      (tunnel_iter (traced c) G tun_fd dns_fd s.start).st.world.trace =
        [(s.world, .running false)]) ∨
    ∃ (w1 w2 w3 : W) (a p : Bool) (nfds : Int) (fds : fd_set) (tv : timeval) (i : Int)
      (ready : List Int) (rest : List (W × Event)),
      (tunnel_iter (traced c) G tun_fd dns_fd s.start).st.world.trace =
        (s.world, .running true) :: (w1, .dnsd_hasack a) :: (w2, .dnsd_haspacket p) ::
          (w3, .select nfds fds tv i ready) :: rest ∧
      c.dnsd_haspacket w2 = (p, w3) ∧
      (tun_fd ∈ fds ↔ p = false) ∧ dns_fd ∈ fds ∧
      (∀ x ∈ rest, x.2.call ≠ .select ∧ x.2.call ≠ .dnsd_haspacket) ∧
      (p = true → ∀ x ∈ rest, x.2.call ≠ .read_tun) := by
  obtain ⟨k, l, s1, hs, he⟩ := tunnel_iter_traced c G tun_fd dns_fd s []
  rw [Locals.start, he]
  simp only [Locals.withTrace, List.nil_append]
  cases hs with
  | stopped w1 hr => exact Or.inl ⟨w1, hr, rfl⟩
  | entered w1 hr a w2 ha p w3 hp i ready w4 hs k tail s1 h =>
    refine Or.inr ⟨w1, w2, w3, a, p, _, _, _, i, ready, tail, rfl, hp,
      mem_readfds_tun p _ _ hfd, mem_readfds_dns p _ _, after_no_wait h, ?_⟩
    intro hp1
    have hnot : tun_fd ∉ (readfds_for p tun_fd dns_fd).filter (fun fd => decide (fd ∈ ready)) := by
      intro hm
      have := (List.mem_filter.mp hm).1
      rw [mem_readfds_tun p _ _ hfd] at this
      simp [hp1] at this
    exact after_no_read_tun h hnot

/-- C5 (two-tier timeout): for all collaborators `c` and every state `s`
in which an execution of the loop of `tunnel()` starts with `running` true,
the timeout handed to `select` is 0 s 50000 us when the `dnsd_hasack()` at
the top of the iteration returned true and 1 s 0 us otherwise, and the
iteration calls `select` only there.  (When `running` is false the only call
is that read.) -/
theorem C5_timeout (c : Collab W) (G tun_fd dns_fd : Int) (s : Locals W) :
    (∃ w1 : W, c.running s.world = (false, w1) ∧
      (tunnel_iter (traced c) G tun_fd dns_fd s.start).st.world.trace =
        [(s.world, .running false)]) ∨
    ∃ (w1 w2 w3 : W) (a p : Bool) (nfds : Int) (fds : fd_set) (i : Int)
      (ready : List Int) (rest : List (W × Event)),
      (tunnel_iter (traced c) G tun_fd dns_fd s.start).st.world.trace =
        (s.world, .running true) :: (w1, .dnsd_hasack a) :: (w2, .dnsd_haspacket p) ::
          (w3, .select nfds fds
            (if a then { tv_sec := 0, tv_usec := 50000 } else { tv_sec := 1, tv_usec := 0 })
            i ready) :: rest ∧
      c.dnsd_hasack w1 = (a, w2) ∧
      ∀ x ∈ rest, x.2.call ≠ .select := by
  obtain ⟨k, l, s1, hs, he⟩ := tunnel_iter_traced c G tun_fd dns_fd s []
  rw [Locals.start, he]
  simp only [Locals.withTrace, List.nil_append]
  cases hs with
  | stopped w1 hr => exact Or.inl ⟨w1, hr, rfl⟩
  | entered w1 hr a w2 ha p w3 hp i ready w4 hs k tail s1 h =>
    exact Or.inr ⟨w1, w2, w3, a, p, _, _, i, ready, tail, rfl, ha,
      fun x hx => (after_no_wait h x hx).1⟩

/-- C6 (forced ack on timeout): for all collaborators `c` and every state
`s` in which an execution of the loop of `tunnel()` starts: if `select`
returned 0, what follows it is one `dnsd_hasack()`, entered in the world
`select` left, and, exactly when that returned true, one
`dnsd_forceack(dns_fd)`, entered in the world `dnsd_hasack` left, and
nothing else (so no `read_tun`, `dnsd_read`, `write_tun` or
`dnsd_queuepacket`); the iteration ends in the world these calls leave.  If
`select` returned anything else the iteration makes no `dnsd_forceack`. -/
theorem C6_forceack (c : Collab W) (G tun_fd dns_fd : Int) (s : Locals W) :
    ∀ (w3 : W) (nfds : Int) (fds : fd_set) (tv : timeval) (i : Int) (ready : List Int),
      (w3, Event.select nfds fds tv i ready) ∈
          (tunnel_iter (traced c) G tun_fd dns_fd s.start).st.world.trace →
      (i = 0 → ∃ (w1 w2 w4 w5 : W) (a p a2 : Bool),
        c.select nfds fds tv w3 = ((0, ready), w4) ∧
        c.dnsd_hasack w4 = (a2, w5) ∧
        (tunnel_iter (traced c) G tun_fd dns_fd s.start).st.world.trace =
          [(s.world, .running true), (w1, .dnsd_hasack a), (w2, .dnsd_haspacket p),
           (w3, .select nfds fds tv i ready), (w4, .dnsd_hasack a2)] ++
          (if a2 then [(w5, .dnsd_forceack dns_fd)] else []) ∧
        (tunnel_iter (traced c) G tun_fd dns_fd s.start).st.world.world =
          (if a2 then c.dnsd_forceack dns_fd w5 else w5) ∧
        (tunnel_iter (traced c) G tun_fd dns_fd s.start).ctl = .fall) ∧
      (i ≠ 0 → ∀ x ∈ (tunnel_iter (traced c) G tun_fd dns_fd s.start).st.world.trace,
        x.2.call ≠ .dnsd_forceack) := by
  intro w3 nfds fds tv i ready
  obtain ⟨k, l, s1, hs, he⟩ := tunnel_iter_traced c G tun_fd dns_fd s []
  rw [Locals.start, he]
  simp only [Locals.withTrace, List.nil_append]
  intro hsel
  cases hs with
  | stopped w1 hr => simp at hsel
  | entered w1 hr a w2 ha p w3a hp i1 ready1 w4 hs k tail s1 h =>
    have hw := after_no_wait h
    simp only [List.mem_cons] at hsel
    rcases hsel with hsel | hsel | hsel | hsel | hsel
    · cases hsel
    · cases hsel
    · cases hsel
    · injection hsel with e0 e1
      injection e1 with e1 e2 e3 e4 e5
      subst e0 e1 e2 e3 e4 e5
      constructor
      · intro hi
        cases h with
        | failed_warn h0 => omega
        | failed_quiet h0 => omega
        | timeout_ack h0 w5 ha2 =>
          subst h0
          exact ⟨w1, w2, w4, w5, a, p, true, hs, ha2, by simp, by simp, rfl⟩
        | timeout_idle h0 w5 ha2 =>
          subst h0
          exact ⟨w1, w2, w4, w5, a, p, false, hs, ha2, by simp, by simp, rfl⟩
        | ready h0 => omega
      · intro hi x hx
        simp only [List.mem_cons] at hx
        rcases hx with hx | hx | hx | hx | hx
        · simp [hx, Event.call]
        · simp [hx, Event.call]
        · simp [hx, Event.call]
        · simp [hx, Event.call]
        · cases h with
          | failed_warn h0 => simp at hx; rcases hx with hx | hx <;> simp [hx, Event.call]
          | failed_quiet h0 => simp at hx; simp [hx, Event.call]
          | timeout_ack h0 => exact absurd h0 hi
          | timeout_idle h0 => exact absurd h0 hi
          | ready h0 k l s1 hr1 =>
            have key : ∀ cs ∈ readyCalls, ∀ y ∈ cs, y ≠ Call.dnsd_forceack := by decide
            exact key _ (ready_calls_mem hr1) _ (call_mem_calls hx)
    · exact absurd rfl (hw _ hsel).1

/-- Where a `dnsd_read` can stand in what follows `select`: it opens the DNS
branch, which is all that follows it, and it is preceded by nothing or by
the three calls of a tunnel branch that enqueued a frame. -/
theorem after_dns_of_mem {c : Collab W} {G tun_fd dns_fd i : Int} {fds : fd_set}
    {s0 s1 : Locals W} {k : Ctl} {l : List (W × Event)}
    (h : AfterShape c G tun_fd dns_fd i fds s0 k l s1) {w : W} {fd : Int} {len : Nat}
    {r : Int} (hm : (w, Event.dnsd_read fd len r) ∈ l) :
    ∃ (pre l2 : List (W × Event)) (sm : Locals W), l = pre ++ l2 ∧
      DnsShape c G tun_fd dns_fd sm k l2 s1 ∧
      (w, Event.dnsd_read fd len r) ∈ l2 ∧
      ((pre = [] ∧ sm = s0) ∨ calls pre = [.read_tun, .compress2, .dnsd_queuepacket]) := by
  cases h with
  | failed_warn => simp at hm
  | failed_quiet => simp at hm
  | timeout_ack => simp at hm
  | timeout_idle => simp at hm
  | ready h k l s1 hr =>
    cases hr with
    | idle => simp at hm
    | tun_cont ht l s1 h => cases h; simp at hm
    | tun_only ht hd l s1 h => cases h; simp at hm
    | dns_only ht hd k l s1 h => exact ⟨[], l, s0, rfl, h, hm, Or.inl ⟨rfl, rfl⟩⟩
    | both ht hd l1 sm h1 k l2 s2 h2 =>
      cases h1
      simp at hm
      exact ⟨_, l2, _, rfl, h2, hm, Or.inr (by simp [calls, Event.call])⟩

/-- Where a `read_tun` with a non-positive result can stand in what follows
`select`: it is all that follows, entered in the state `select` left and
ended by `continue`. -/
theorem after_tun_of_mem {c : Collab W} {G tun_fd dns_fd i : Int} {fds : fd_set}
    {s0 s1 : Locals W} {k : Ctl} {l : List (W × Event)}
    (h : AfterShape c G tun_fd dns_fd i fds s0 k l s1) {w : W} {fd : Int} {len : Nat}
    {r : Int} (hr : r ≤ 0) (hm : (w, Event.read_tun fd len r) ∈ l) :
    l = [(s0.world, .read_tun tun_fd BUFSZ r)] ∧ w = s0.world ∧ k = .cont ∧
      ∃ buf : Buf, c.read_tun tun_fd s0.inbuf BUFSZ s0.world = ((r, buf), s1.world) ∧
        s1.inbuf = buf ∧ s1.outbuf = s0.outbuf := by
  cases h with
  | failed_warn => simp at hm
  | failed_quiet => simp at hm
  | timeout_ack => simp at hm
  | timeout_idle => simp at hm
  | ready h k l s1 hr1 =>
    cases hr1 with
    | idle => simp at hm
    | tun_cont ht l s1 h =>
      cases h with
      | absorbed r1 buf w1 hrd h1 =>
        simp at hm
        obtain ⟨h0, _, _, h3⟩ := hm
        subst h3 h0
        exact ⟨rfl, rfl, rfl, buf, hrd, rfl, rfl⟩
    | tun_only ht hd l s1 h =>
      cases h
      simp at hm
      omega
    | dns_only ht hd k l s1 h => cases h <;> simp at hm
    | both ht hd l1 sm h1 k l2 s2 h2 =>
      cases h1
      cases h2 <;> simp at hm <;> omega

/-- C3 (handshake): for all collaborators `c` and every state `s` in which
an execution of the loop of `tunnel()` starts, with `GOTHELLO` non-positive:
if `dnsd_read` returned `GOTHELLO`, the read is followed by exactly one
call, `dnsd_queuepacket(in, 15)`, entered in the world the read left, with
the first 15 bytes of `in` the ASCII string `172.30.5.2-1023`; the
iteration ends there by `continue`, in the world that `dnsd_queuepacket`
leaves; no other `dnsd_read` precedes, and the iteration calls neither
`uncompress` nor `write_tun`. -/
theorem C3_handshake (c : Collab W) (G tun_fd dns_fd : Int) (hG : G ≤ 0) (s : Locals W) :
    ∀ (w : W) (fd : Int) (len : Nat),
      (w, Event.dnsd_read fd len G) ∈
          (tunnel_iter (traced c) G tun_fd dns_fd s.start).st.world.trace →
      ∃ (pre : List (W × Event)) (inb buf reply : Buf) (w1 : W),
        c.dnsd_read dns_fd inb BUFSZ w = ((G, buf), w1) ∧
        (tunnel_iter (traced c) G tun_fd dns_fd s.start).st.world.trace =
          pre ++ [(w, .dnsd_read dns_fd BUFSZ G), (w1, .dnsd_queuepacket reply 15)] ∧
        reply.take 15 = "172.30.5.2-1023".toList.map Char.toNat ∧
        (tunnel_iter (traced c) G tun_fd dns_fd s.start).st.world.world =
          c.dnsd_queuepacket reply 15 w1 ∧
        (tunnel_iter (traced c) G tun_fd dns_fd s.start).st.inbuf = reply ∧
        (tunnel_iter (traced c) G tun_fd dns_fd s.start).ctl = .cont ∧
        (∀ x ∈ pre, x.2.call ≠ .dnsd_read) ∧
        ∀ x ∈ (tunnel_iter (traced c) G tun_fd dns_fd s.start).st.world.trace,
          x.2.call ≠ .uncompress ∧ x.2.call ≠ .write_tun := by
  intro w fd len
  obtain ⟨k, l, s1, hs, he⟩ := tunnel_iter_traced c G tun_fd dns_fd s []
  rw [Locals.start, he]
  simp only [Locals.withTrace, List.nil_append]
  intro hm
  cases hs with
  | stopped w1 hr => simp at hm
  | entered w1 hr a w2 ha p w3 hp i ready w4 hs k tail s1 h =>
    have hm1 : (w, Event.dnsd_read fd len G) ∈ tail := by simpa using hm
    obtain ⟨pre, l2, sm, rfl, hd, hm2, hpre⟩ := after_dns_of_mem h hm1
    have hprec : ∀ x ∈ pre, x.2.call ≠ .dnsd_read ∧ x.2.call ≠ .uncompress ∧
        x.2.call ≠ .write_tun := by
      intro x hx
      rcases hpre with ⟨hpre, _⟩ | hpre
      · rw [hpre] at hx
        simp at hx
      · have := call_mem_calls hx
        rw [hpre] at this
        simp at this
        rcases this with h1 | h1 | h1 <;> simp [h1]
    cases hd with
    | absorbed r buf w5 hrd h0 hne =>
      simp at hm2
      exact absurd hm2.2.2.2.symm hne
    | data r buf w5 hrd h0 out len1 w6 hun =>
      simp at hm2
      omega
    | hello buf w5 hrd h0 reply hrep hb =>
      simp at hm2
      obtain ⟨hw, _, _⟩ := hm2
      subst hw
      refine ⟨_ :: _ :: _ :: _ :: pre, sm.inbuf, buf, reply, w5, hrd, rfl, hb, rfl, rfl, rfl,
        ?_, ?_⟩
      · intro x hx
        simp only [List.mem_cons] at hx
        rcases hx with hx | hx | hx | hx | hx
        · simp [hx, Event.call]
        · simp [hx, Event.call]
        · simp [hx, Event.call]
        · simp [hx, Event.call]
        · exact (hprec x hx).1
      · intro x hx
        simp only [List.mem_cons, List.mem_append] at hx
        rcases hx with hx | hx | hx | hx | hx | hx
        · simp [hx, Event.call]
        · simp [hx, Event.call]
        · simp [hx, Event.call]
        · simp [hx, Event.call]
        · exact (hprec x hx).2
        · simp at hx
          rcases hx with hx | hx <;> simp [hx, Event.call]

theorem tunnel_succ_of_status_none (c : Collab W) (G tun_fd dns_fd : Int) (s : Locals W)
    (h : (tunnel_iter c G tun_fd dns_fd s).ctl.status = none) (fuel : Nat) :
    tunnel c G tun_fd dns_fd (fuel + 1) s =
      tunnel c G tun_fd dns_fd fuel (tunnel_iter c G tun_fd dns_fd s).st := by
  rw [tunnel, h]

/-- C7 (absorbed anomalies): for all collaborators `c` and every state `s`
in which an execution of the loop of `tunnel()` starts: (1) if `read_tun`
returns a value `<= 0`, the iteration is the four opening calls and that
read, nothing else, and it ends in the world that read left, with `in` as
the read left it and `out` untouched; (2) if `dnsd_read` returns a value
`<= 0` other than `GOTHELLO`, that read is the last call of the iteration,
what precedes it has no `warn`, `dnsd_forceack`, `uncompress`, `write_tun`
or other `dnsd_read`, and the iteration ends in the world that read left,
with `in` as the read left it; (3) in both cases the iteration ends by
`continue`, with no warning, and the loop goes on with the next iteration
from the state the iteration left. -/
theorem C7_absorbed (c : Collab W) (G tun_fd dns_fd : Int) (s : Locals W)
    (w : W) (fd : Int) (len : Nat) (r : Int) (hr : r ≤ 0) :
    ((w, Event.read_tun fd len r) ∈
        (tunnel_iter (traced c) G tun_fd dns_fd s.start).st.world.trace →
      ∃ (w1 w2 w3 w5 : W) (a p : Bool) (nfds : Int) (fds : fd_set) (tv : timeval) (i : Int)
        (ready : List Int) (buf : Buf),
        c.read_tun tun_fd s.inbuf BUFSZ w = ((r, buf), w5) ∧
        (tunnel_iter (traced c) G tun_fd dns_fd s.start).st.world.trace =
          [(s.world, .running true), (w1, .dnsd_hasack a), (w2, .dnsd_haspacket p),
           (w3, .select nfds fds tv i ready), (w, .read_tun tun_fd BUFSZ r)] ∧
        (tunnel_iter (traced c) G tun_fd dns_fd s.start).st.erase = ⟨w5, buf, s.outbuf⟩) ∧
    ((w, Event.dnsd_read fd len r) ∈
        (tunnel_iter (traced c) G tun_fd dns_fd s.start).st.world.trace → r ≠ G →
      ∃ (pre : List (W × Event)) (inb outb buf : Buf) (w5 : W),
        c.dnsd_read dns_fd inb BUFSZ w = ((r, buf), w5) ∧
        (tunnel_iter (traced c) G tun_fd dns_fd s.start).st.world.trace =
          pre ++ [(w, .dnsd_read dns_fd BUFSZ r)] ∧
        (tunnel_iter (traced c) G tun_fd dns_fd s.start).st.erase = ⟨w5, buf, outb⟩ ∧
        ((∀ x ∈ pre, x.2.call ≠ .compress2) → inb = s.inbuf ∧ outb = s.outbuf) ∧
        ∀ x ∈ pre, x.2.call ≠ .warn ∧ x.2.call ≠ .dnsd_forceack ∧ x.2.call ≠ .uncompress ∧
          x.2.call ≠ .write_tun ∧ x.2.call ≠ .dnsd_read) ∧
    (((w, Event.read_tun fd len r) ∈
          (tunnel_iter (traced c) G tun_fd dns_fd s.start).st.world.trace ∨
        ((w, Event.dnsd_read fd len r) ∈
          (tunnel_iter (traced c) G tun_fd dns_fd s.start).st.world.trace ∧ r ≠ G)) →
      (tunnel_iter (traced c) G tun_fd dns_fd s.start).ctl = .cont ∧
      (∀ x ∈ (tunnel_iter (traced c) G tun_fd dns_fd s.start).st.world.trace,
        x.2.call ≠ .warn) ∧
      ∀ fuel : Nat,
        tunnel (traced c) G tun_fd dns_fd (fuel + 1) s.start =
          tunnel (traced c) G tun_fd dns_fd fuel
            (tunnel_iter (traced c) G tun_fd dns_fd s.start).st) := by
  have hloop := tunnel_succ_of_status_none (traced c) G tun_fd dns_fd s.start
  revert hloop
  obtain ⟨k, l, s1, hs, he⟩ := tunnel_iter_traced c G tun_fd dns_fd s []
  rw [Locals.start, he]
  simp only [Locals.withTrace, List.nil_append, Locals.erase]
  intro hloop
  cases hs with
  | stopped w1 hr1 => simp
  | entered w1 hr1 a w2 ha p w3 hp i ready w4 hs k tail s1 h =>
    have hT : (w, Event.read_tun fd len r) ∈ ((s.world, Event.running true) ::
        (w1, Event.dnsd_hasack a) :: (w2, Event.dnsd_haspacket p) ::
        (w3, Event.select (MAX tun_fd dns_fd + 1) (readfds_for p tun_fd dns_fd)
          (timeout_for a) i ready) :: tail) →
        tail = [(w4, .read_tun tun_fd BUFSZ r)] ∧ w = w4 ∧ k = .cont ∧
          ∃ buf : Buf, c.read_tun tun_fd s.inbuf BUFSZ w4 = ((r, buf), s1.world) ∧
            s1.inbuf = buf ∧ s1.outbuf = s.outbuf := by
      intro hm
      have hm1 : (w, Event.read_tun fd len r) ∈ tail := by simpa using hm
      exact after_tun_of_mem h hr hm1
    have hD : (w, Event.dnsd_read fd len r) ∈ ((s.world, Event.running true) ::
        (w1, Event.dnsd_hasack a) :: (w2, Event.dnsd_haspacket p) ::
        (w3, Event.select (MAX tun_fd dns_fd + 1) (readfds_for p tun_fd dns_fd)
          (timeout_for a) i ready) :: tail) → r ≠ G →
        ∃ (pre : List (W × Event)) (inb outb buf : Buf) (w5 : W),
          c.dnsd_read dns_fd inb BUFSZ w = ((r, buf), w5) ∧
          tail = pre ++ [(w, .dnsd_read dns_fd BUFSZ r)] ∧ s1 = ⟨w5, buf, outb⟩ ∧ k = .cont ∧
          ((pre = [] ∧ inb = s.inbuf ∧ outb = s.outbuf) ∨
            calls pre = [.read_tun, .compress2, .dnsd_queuepacket]) := by
      intro hm hne
      have hm1 : (w, Event.dnsd_read fd len r) ∈ tail := by simpa using hm
      obtain ⟨pre, l2, sm, rfl, hd, hm2, hpre⟩ := after_dns_of_mem h hm1
      cases hd with
      | absorbed r1 buf w5 hrd h0 hne1 =>
        simp at hm2
        obtain ⟨h1, _, _, h4⟩ := hm2
        subst h1 h4
        refine ⟨pre, sm.inbuf, sm.outbuf, buf, w5, hrd, rfl, rfl, rfl, ?_⟩
        rcases hpre with ⟨hp1, hp2⟩ | hp1
        · left
          subst hp2
          exact ⟨hp1, rfl, rfl⟩
        · exact Or.inr hp1
      | hello buf w5 hrd h0 reply hrep hb =>
        simp at hm2
        exact absurd hm2.2.2.2 hne
      | data r1 buf w5 hrd h0 out len1 w6 hun =>
        simp at hm2
        omega
    have hpre : ∀ (pre : List (W × Event)) (q : Prop),
        ((pre = [] ∧ q) ∨ calls pre = [.read_tun, .compress2, .dnsd_queuepacket]) →
        ∀ x ∈ pre, x.2.call ≠ .warn ∧ x.2.call ≠ .dnsd_forceack ∧ x.2.call ≠ .uncompress ∧
          x.2.call ≠ .write_tun ∧ x.2.call ≠ .dnsd_read := by
      intro pre q hp x hx
      rcases hp with ⟨hp, _⟩ | hp
      · rw [hp] at hx
        simp at hx
      · have := call_mem_calls hx
        rw [hp] at this
        simp at this
        rcases this with h1 | h1 | h1 <;> simp [h1]
    refine ⟨?_, ?_, ?_⟩
    · intro hm
      obtain ⟨rfl, rfl, _, buf, hrd, hb1, hb2⟩ := hT hm
      refine ⟨w1, w2, w3, s1.world, a, p, _, _, _, i, ready, buf, hrd, rfl, ?_⟩
      rw [hb1, hb2]
    · intro hm hne
      obtain ⟨pre, inb, outb, buf, w5, hrd, rfl, rfl, _, hp1⟩ := hD hm hne
      refine ⟨_ :: _ :: _ :: _ :: pre, inb, outb, buf, w5, hrd, rfl, rfl, ?_, ?_⟩
      · intro hno
        rcases hp1 with ⟨_, h1, h2⟩ | hp1
        · exact ⟨h1, h2⟩
        · exfalso
          have hmem : Call.compress2 ∈ calls pre := by rw [hp1]; simp
          obtain ⟨x, hx, hxc⟩ := List.mem_map.mp hmem
          exact hno x (List.mem_cons_of_mem _ (List.mem_cons_of_mem _
            (List.mem_cons_of_mem _ (List.mem_cons_of_mem _ hx)))) hxc
      · intro x hx
        simp only [List.mem_cons] at hx
        rcases hx with hx | hx | hx | hx | hx
        · simp [hx, Event.call]
        · simp [hx, Event.call]
        · simp [hx, Event.call]
        · simp [hx, Event.call]
        · exact hpre pre _ hp1 x hx
    · intro hm
      rcases hm with hm | ⟨hm, hne⟩
      · obtain ⟨rfl, rfl, rfl, _⟩ := hT hm
        refine ⟨rfl, ?_, fun fuel => hloop rfl fuel⟩
        intro x hx
        simp only [List.mem_cons] at hx
        rcases hx with hx | hx | hx | hx | hx | hx
        · simp [hx, Event.call]
        · simp [hx, Event.call]
        · simp [hx, Event.call]
        · simp [hx, Event.call]
        · simp [hx, Event.call]
        · simp at hx
      · obtain ⟨pre, inb, outb, buf, w5, hrd, rfl, _, rfl, hp1⟩ := hD hm hne
        refine ⟨rfl, ?_, fun fuel => hloop rfl fuel⟩
        intro x hx
        simp only [List.mem_cons, List.mem_append] at hx
        rcases hx with hx | hx | hx | hx | hx | hx
        · simp [hx, Event.call]
        · simp [hx, Event.call]
        · simp [hx, Event.call]
        · simp [hx, Event.call]
        · exact (hpre pre _ hp1 x hx).1
        · simp at hx
          simp [hx, Event.call]

end TunnelClaims

/-! ## Tracing does not change what the code does -/

section Erase

variable {W : Type}

theorem shape_erase_tun {c : Collab W} {tun_fd : Int} {s s1 : Locals W} {k : Ctl}
    {l : List (W × Event)} (h : TunShape c tun_fd s k l s1) :
    tun_branch c tun_fd s = ⟨k, s1⟩ := by
  cases h with
  | absorbed r buf w1 hrd h0 => simp [tun_branch, hrd, h0]
  | frame r buf w1 hrd h0 out len w2 hcp => simp [tun_branch, hrd, hcp, not_le.mpr h0]

theorem shape_erase_dns {c : Collab W} {G tun_fd dns_fd : Int} {s s1 : Locals W} {k : Ctl}
    {l : List (W × Event)} (h : DnsShape c G tun_fd dns_fd s k l s1) :
    dns_branch c G tun_fd dns_fd s = ⟨k, s1⟩ := by
  cases h with
  | absorbed r buf w1 hrd h0 hne => simp [dns_branch, hrd, h0, hne]
  | data r buf w1 hrd h0 out len w2 hun => simp [dns_branch, hrd, hun, not_le.mpr h0]
  | hello buf w1 hrd h0 reply hrep hb =>
    subst hrep
    simp [dns_branch, hrd, h0, (snprintf_hello _).1]

theorem shape_erase_ready {c : Collab W} {G tun_fd dns_fd : Int} {fds : fd_set}
    {s s1 : Locals W} {k : Ctl} {l : List (W × Event)}
    (h : ReadyShape c G tun_fd dns_fd fds s k l s1) :
    ready_branch c G tun_fd dns_fd fds s = ⟨k, s1⟩ := by
  unfold ready_branch
  cases h with
  | idle ht hd => simp [FD_ISSET, ht, hd, IterOut.seq, skip]
  | tun_cont ht l s1 h => simp [FD_ISSET, ht, IterOut.seq, shape_erase_tun h]
  | tun_only ht hd l s1 h => simp [FD_ISSET, ht, hd, IterOut.seq, skip, shape_erase_tun h]
  | dns_only ht hd k l s1 h =>
    simp [FD_ISSET, ht, hd, IterOut.seq, skip, shape_erase_dns h]
  | both ht hd l1 sm h1 k l2 s2 h2 =>
    simp [FD_ISSET, ht, hd, IterOut.seq, shape_erase_tun h1, shape_erase_dns h2]

theorem shape_erase_after {c : Collab W} {G tun_fd dns_fd i : Int} {fds : fd_set}
    {s s1 : Locals W} {k : Ctl} {l : List (W × Event)}
    (h : AfterShape c G tun_fd dns_fd i fds s k l s1) :
    after_select c G tun_fd dns_fd i fds s = ⟨k, s1⟩ := by
  unfold after_select
  cases h with
  | failed_warn h0 w1 hr => simp [h0, hr]
  | failed_quiet h0 w1 hr => simp [h0, hr]
  | timeout_ack h0 w1 ha => simp [h0, ha]
  | timeout_idle h0 w1 ha => simp [h0, ha]
  | ready h0 k l s1 hr =>
    have h1 : ¬ i < 0 := by omega
    have h2 : ¬ i = 0 := by omega
    simp [h1, h2, shape_erase_ready hr]

theorem shape_erase_iter {c : Collab W} {G tun_fd dns_fd : Int} {s s1 : Locals W} {k : Ctl}
    {l : List (W × Event)} (h : IterShape c G tun_fd dns_fd s k l s1) :
    tunnel_iter c G tun_fd dns_fd s = ⟨k, s1⟩ := by
  unfold tunnel_iter
  cases h with
  | stopped w1 hr => simp [hr]
  | entered w1 hr a w2 ha p w3 hp i ready w4 hs k tail s1 h =>
    simp [hr, ha, hp, hs, shape_erase_after h]

/-- One execution of the loop over the tracing collaborators ends as it does
over `c` itself, in the same state, with a trace added. -/
theorem tunnel_iter_erase (c : Collab W) (G tun_fd dns_fd : Int) (s : Locals W)
    (tr : List (W × Event)) :
    (tunnel_iter (traced c) G tun_fd dns_fd (s.withTrace tr)).ctl =
      (tunnel_iter c G tun_fd dns_fd s).ctl ∧
    (tunnel_iter (traced c) G tun_fd dns_fd (s.withTrace tr)).st.erase =
      (tunnel_iter c G tun_fd dns_fd s).st := by
  obtain ⟨k, l, s1, hs, he⟩ := tunnel_iter_traced c G tun_fd dns_fd s tr
  rw [he, shape_erase_iter hs]
  exact ⟨rfl, rfl⟩

/-- The loop over the tracing collaborators returns what it returns over `c`
itself, and ends in the same state. -/
theorem tunnel_erase (c : Collab W) (G tun_fd dns_fd : Int) :
    ∀ (fuel : Nat) (s : Locals W) (tr : List (W × Event)),
      (tunnel (traced c) G tun_fd dns_fd fuel (s.withTrace tr)).ret =
        (tunnel c G tun_fd dns_fd fuel s).ret ∧
      (tunnel (traced c) G tun_fd dns_fd fuel (s.withTrace tr)).st.erase =
        (tunnel c G tun_fd dns_fd fuel s).st := by
  intro fuel
  induction fuel with
  | zero => intro s tr; exact ⟨rfl, rfl⟩
  | succ n ih =>
    intro s tr
    obtain ⟨k, l, s1, hs, he⟩ := tunnel_iter_traced c G tun_fd dns_fd s tr
    have h2 := shape_erase_iter hs
    rw [tunnel, tunnel, he, h2]
    cases hk : k.status with
    | some r => exact ⟨rfl, rfl⟩
    | none => exact ih s1 (tr ++ l)

end Erase

/-! ## The enqueue of the frame is guarded, and a failed wait returns 1 -/

section FrameSite

variable {W : Type}

theorem enqueuesAfter_append (k : Call) (x : W × Event) (hx : x.2.call ≠ .dnsd_queuepacket) :
    ∀ (tr l : List (W × Event)),
      enqueuesAfter k (tr ++ x :: l) = enqueuesAfter k tr ++ enqueuesAfter k (x :: l) := by
  intro tr
  induction tr with
  | nil => intro l; simp [enqueuesAfter]
  | cons a rest ih =>
    intro l
    cases rest with
    | nil => simp [enqueuesAfter, hx]
    | cons b rest2 =>
      have := ih l
      simp only [List.cons_append] at this ⊢
      simp only [enqueuesAfter, this, List.append_assoc]

/-- Under the model of the queued flag, and for two distinct descriptors,
every `dnsd_queuepacket` of a compressed frame (line 89) made by an
execution of the loop is entered with the flag clear. -/
theorem frame_enqueue_guarded_iter (c : Collab W) (queued : W → Bool)
    (hm : FlagModel c queued) (G tun_fd dns_fd : Int) (hfd : tun_fd ≠ dns_fd)
    {s s1 : Locals W} {k : Ctl} {l : List (W × Event)}
    (h : IterShape c G tun_fd dns_fd s k l s1) :
    ∀ w ∈ enqueuesAfter .compress2 l, queued w = false := by
  cases h with
  | stopped w1 hr => simp [enqueuesAfter]
  | entered w1 hr a w2 ha p w3 hp i ready w4 hs k tail s1 h =>
    have hflag : tun_fd ∈ (readfds_for p tun_fd dns_fd).filter (fun fd => decide (fd ∈ ready)) →
        queued w4 = false := by
      intro ht
      have h1 := (List.mem_filter.mp ht).1
      rw [mem_readfds_tun p _ _ hfd] at h1
      have h2 := hm.haspacket_reads w2
      rw [hp] at h2
      have h3 := hm.haspacket_keeps w2 (by rw [← h2]; exact h1)
      rw [hp] at h3
      have h4 := hm.select_keeps (MAX tun_fd dns_fd + 1) (readfds_for p tun_fd dns_fd)
        (timeout_for a) w3 h3
      rw [hs] at h4
      exact h4
    have hframe : ∀ (r : Int) (buf : Buf) (w5 : W) (out : Buf) (len : Int) (w6 : W),
        c.read_tun tun_fd s.inbuf BUFSZ w4 = ((r, buf), w5) →
        c.compress2 s.outbuf BUFSZ buf r 9 w5 = ((out, len), w6) →
        queued w4 = false → queued w6 = false := by
      intro r buf w5 out len w6 hrd hcp h0
      have h1 := hm.read_tun_keeps tun_fd s.inbuf BUFSZ w4 h0
      rw [hrd] at h1
      have h2 := hm.compress2_keeps s.outbuf BUFSZ buf r 9 w5 h1
      rw [hcp] at h2
      exact h2
    intro w hw
    cases h with
    | failed_warn => simp [enqueuesAfter, Event.call] at hw
    | failed_quiet => simp [enqueuesAfter, Event.call] at hw
    | timeout_ack => simp [enqueuesAfter, Event.call] at hw
    | timeout_idle => simp [enqueuesAfter, Event.call] at hw
    | ready h0 k l s1 hr1 =>
      cases hr1 with
      | idle => simp [enqueuesAfter, Event.call] at hw
      | tun_cont ht l s1 h => cases h; simp [enqueuesAfter, Event.call] at hw
      | tun_only ht hd l s1 h =>
        cases h with
        | frame r buf w5 hrd h1 out len w6 hcp =>
          simp [enqueuesAfter, Event.call] at hw
          rw [hw]
          exact hframe r buf w5 out len w6 hrd hcp (hflag ht)
      | dns_only ht hd k l s1 h => cases h <;> simp [enqueuesAfter, Event.call] at hw
      | both ht hd l1 sm h1 k l2 s2 h2 =>
        cases h1 with
        | frame r buf w5 hrd h1 out len w6 hcp =>
          cases h2 <;>
          · simp [enqueuesAfter, Event.call] at hw
            rw [hw]
            exact hframe r buf w5 out len w6 hrd hcp (hflag ht)

/-- Under the model of the queued flag, and for two distinct descriptors,
every `dnsd_queuepacket` of a compressed frame (line 89) is entered with the
flag clear, in every run of `tunnel()`. -/
theorem frame_enqueue_guarded (c : Collab W) (queued : W → Bool) (hm : FlagModel c queued)
    (G tun_fd dns_fd : Int) (hfd : tun_fd ≠ dns_fd) :
    ∀ (fuel : Nat) (s : Locals W) (tr : List (W × Event)),
      (∀ w ∈ enqueuesAfter .compress2 tr, queued w = false) →
      ∀ w ∈ enqueuesAfter .compress2
          (tunnel (traced c) G tun_fd dns_fd fuel (s.withTrace tr)).st.world.trace,
        queued w = false := by
  intro fuel
  induction fuel with
  | zero => intro s tr h; exact h
  | succ n ih =>
    intro s tr h
    obtain ⟨k, l, s1, hs, he⟩ := tunnel_iter_traced c G tun_fd dns_fd s tr
    have hl := frame_enqueue_guarded_iter c queued hm G tun_fd dns_fd hfd hs
    have hnew : ∀ w ∈ enqueuesAfter .compress2 (tr ++ l), queued w = false := by
      intro w hw
      cases hs with
      | stopped w1 hr =>
        rw [enqueuesAfter_append _ _ (by simp [Event.call])] at hw
        rcases List.mem_append.mp hw with hw | hw
        · exact h w hw
        · exact hl w hw
      | entered w1 hr a w2 ha p w3 hp i ready w4 hs k tail s1 h0 =>
        rw [enqueuesAfter_append _ _ (by simp [Event.call])] at hw
        rcases List.mem_append.mp hw with hw | hw
        · exact h w hw
        · exact hl w hw
    rw [tunnel, he]
    cases hk : k.status with
    | some r => exact hnew
    | none => exact ih s1 (tr ++ l) hnew

/-- Whenever `select` fails in an execution of the loop, `running` is read
once more, `warn` is called exactly when it is still true, nothing else is
done, and the iteration ends in `return 1` either way. -/
theorem failed_wait_returns_one (c : Collab W) (G tun_fd dns_fd : Int) (s : Locals W) :
    ∀ (w3 : W) (nfds : Int) (fds : fd_set) (tv : timeval) (i : Int) (ready : List Int),
      (w3, Event.select nfds fds tv i ready) ∈
          (tunnel_iter (traced c) G tun_fd dns_fd s.start).st.world.trace →
      i < 0 →
      (tunnel_iter (traced c) G tun_fd dns_fd s.start).ctl = .ret 1 ∧
      ∃ (pre : List (W × Event)) (w4 w5 : W) (b : Bool),
        c.select nfds fds tv w3 = ((i, ready), w4) ∧ c.running w4 = (b, w5) ∧
        (tunnel_iter (traced c) G tun_fd dns_fd s.start).st.world.trace =
          pre ++ (w3, .select nfds fds tv i ready) :: (w4, .running b) ::
            (if b then [(w5, .warn "select")] else []) := by
  intro w3 nfds fds tv i ready
  obtain ⟨k, l, s1, hs, he⟩ := tunnel_iter_traced c G tun_fd dns_fd s []
  rw [Locals.start, he]
  simp only [Locals.withTrace, List.nil_append]
  intro hsel hi
  cases hs with
  | stopped w1 hr => simp at hsel
  | entered w1 hr a w2 ha p w3a hp i1 ready1 w4 hs k tail s1 h =>
    have hw := after_no_wait h
    simp only [List.mem_cons] at hsel
    rcases hsel with hsel | hsel | hsel | hsel | hsel
    · cases hsel
    · cases hsel
    · cases hsel
    · injection hsel with e0 e1
      injection e1 with e1 e2 e3 e4 e5
      subst e0 e1 e2 e3 e4 e5
      cases h with
      | failed_warn h0 w5 hr5 => exact ⟨rfl, [_, _, _], w4, w5, true, hs, hr5, rfl⟩
      | failed_quiet h0 w5 hr5 => exact ⟨rfl, [_, _, _], w4, w5, false, hs, hr5, rfl⟩
      | timeout_ack h0 => omega
      | timeout_idle h0 => omega
      | ready h0 => omega
    · exact absurd rfl (hw _ hsel).1

end FrameSite

/-! ## Runs on concrete inputs -/

/-- C4 fails on the code: SIGINT arrives during the wait, `select` returns
-1, `running` is read false and no warning is made, and yet `tunnel` returns
the failure status 1; stopped at the top-of-loop test it returns 0. -/
theorem C4_interrupted_wait_returns_failure :
    ((simRun 1 sim_sigint).ret = some 1 ∧
      (tunnel simCollab simHELLO 3 4 1 ⟨sim_sigint, [], []⟩).ret = some 1 ∧
      (simRun 1 sim_sigint).st.world.trace.map (fun x => x.2) =
        [.running true, .dnsd_hasack false, .dnsd_haspacket false,
         .select 5 [4, 3] { tv_sec := 1, tv_usec := 0 } (-1) [], .running false]) ∧
    ((simRun 1 sim_stopped).ret = some 0 ∧
      (simRun 1 sim_stopped).st.world.trace.map (fun x => x.2) = [.running false]) := by
  decide

/-- C2 fails on the code: `dnsd_queuepacket` is entered with the queued
flag set, (a) in an iteration that starts with a packet queued and whose
`dnsd_read` returns `GOTHELLO`, and (b) in an iteration in which both
descriptors are ready, the tunnel branch enqueues a frame and `dnsd_read`
then returns `GOTHELLO`.  Each call is shown with the queued flag of the
world it is entered in. -/
theorem C2_queuepacket_while_queued :
    ((simRun 1 sim_hello_queued).st.world.trace.map (fun x => (x.2, x.1.queued)) =
        [(.running true, true), (.dnsd_hasack false, true), (.dnsd_haspacket true, true),
         (.select 5 [4] { tv_sec := 1, tv_usec := 0 } 1 [4], true),
         (.dnsd_read 4 BUFSZ simHELLO, true),
         (.dnsd_queuepacket helloReply 15, true)] ∧
      (enqueuesAfter .compress2 (simRun 1 sim_hello_queued).st.world.trace).map Sim.queued =
        [] ∧
      (enqueuesAfter .dnsd_read (simRun 1 sim_hello_queued).st.world.trace).map Sim.queued =
        [true]) ∧
    ((simRun 1 sim_both_ready).st.world.trace.map (fun x => (x.2, x.1.queued)) =
        [(.running true, false), (.dnsd_hasack false, false), (.dnsd_haspacket false, false),
         (.select 5 [4, 3] { tv_sec := 1, tv_usec := 0 } 2 [3, 4], false),
         (.read_tun 3 BUFSZ 3, false), (.compress2 BUFSZ [69, 0, 0] 3 9, false),
         (.dnsd_queuepacket [69, 0, 0] 3, false),
         (.dnsd_read 4 BUFSZ simHELLO, true),
         (.dnsd_queuepacket helloReply 15, true)] ∧
      (enqueuesAfter .compress2 (simRun 1 sim_both_ready).st.world.trace).map Sim.queued =
        [false] ∧
      (enqueuesAfter .dnsd_read (simRun 1 sim_both_ready).st.world.trace).map Sim.queued =
        [true]) := by
  decide

/-- C9 fails on the code: when `open_dnsd` returns -1, `main` jumps to
`cleanup2` and calls `close_dnsd(-1)` before `close_tun(3)`. -/
theorem C9_close_dnsd_after_failed_open :
    (main sysDnsFails [('f', "")] ["10.0.0.1", "t.example.com"]).trace =
      [.geteuid, .open_tun, .tun_setip "10.0.0.1", .tun_setmtu 1024,
       .open_dnsd "t.example.com", .close_dnsd (-1), .close_tun 3] ∧
    (main sysDnsFails [('f', "")] ["10.0.0.1", "t.example.com"]).trace.filter SysCall.isClose =
      [.close_dnsd (-1), .close_tun 3] := by
  decide

/-- C10 fails on the code: `select` fails while `running` is true,
`tunnel` warns and returns 1, and `main`, which drops that result, exits
with status 0. -/
theorem C10_failure_status_dropped :
    (tunnel simCollab simHELLO 3 4 1 ⟨sim_select_fails, [], []⟩).ret = some 1 ∧
    (simRun 1 sim_select_fails).ret = some 1 ∧
    (simRun 1 sim_select_fails).st.world.trace.map (fun x => x.2) =
      [.running true, .dnsd_hasack false, .dnsd_haspacket false,
       .select 5 [4, 3] { tv_sec := 1, tv_usec := 0 } (-1) [], .running true,
       .warn "select"] ∧
    (main (sysRoot (tunnel simCollab simHELLO 3 4 1 ⟨sim_select_fails, [], []⟩).ret)
        [('f', "")] ["10.0.0.1", "t.example.com"]) =
      { trace := [.geteuid, .open_tun, .tun_setip "10.0.0.1", .tun_setmtu 1024,
                  .open_dnsd "t.example.com", .signal_SIGINT, .tunnel 3 4,
                  .close_dnsd 4, .close_tun 3],
        status := some 0 } := by
  decide

/-- C8, as stated, fails: with `-t` and `-u`, the `setuid(getuid())` of the
chroot block is issued before `setgid`. -/
theorem C8_counterexample :
    (main (sysRoot (some 0)) [('t', "/var/empty"), ('u', "nobody")]
        ["10.0.0.1", "t.example.com"]).trace.filter SysCall.isPriv =
      [.chroot "/var/empty", .seteuid 0, .setuid 0, .setgid 100, .setuid 1000] := by
  decide

/-! ## The start-up sequence of `main()` -/

section Startup

theorem andThen_trace_filter (a b : Out) (q : SysCall → Bool) :
    (a.andThen b).trace.filter q =
      a.trace.filter q ++ (if a.status = none then b.trace.filter q else []) := by
  unfold Out.andThen
  cases h : a.status <;> simp

theorem andThen_status (a b : Out) :
    (a.andThen b).status = if a.status = none then b.status else a.status := by
  unfold Out.andThen
  cases h : a.status <;> simp

theorem mem_andThen_trace (a b : Out) (e : SysCall) :
    e ∈ (a.andThen b).trace ↔ e ∈ a.trace ∨ (a.status = none ∧ e ∈ b.trace) := by
  unfold Out.andThen
  cases h : a.status <;> simp

/-- The chroot block either ends the process after `chroot`, or makes
`chroot`, `seteuid` and `setuid` in this order; it does not call `tunnel`. -/
theorem chroot_block_priv (sys : Sys) (dir : String) :
    (∀ t d : Int, SysCall.tunnel t d ∉ (chroot_block sys (some dir)).trace) ∧
    (((chroot_block sys (some dir)).status = some 1 ∧
        (chroot_block sys (some dir)).trace.filter SysCall.isPriv = [.chroot dir]) ∨
     ((chroot_block sys (some dir)).status = none ∧
        (chroot_block sys (some dir)).trace.filter SysCall.isPriv =
          [.chroot dir, .seteuid sys.geteuid_chroot, .setuid sys.getuid])) := by
  unfold chroot_block
  simp only
  split_ifs <;> simp [SysCall.isPriv]

/-- The user block either ends the process after `setgid` or after
`setgid`, `setuid`, or makes `setgid`, `setuid` in this order; it does not
call `tunnel`. -/
theorem user_block_priv (sys : Sys) (name : String) (pw : Int × Int) :
    (∀ t d : Int, SysCall.tunnel t d ∉ (user_block sys (some name) pw).trace) ∧
    (((user_block sys (some name) pw).status = some 2 ∧
        (user_block sys (some name) pw).trace.filter SysCall.isPriv = [.setgid pw.2]) ∨
     ((user_block sys (some name) pw).status = some 2 ∧
        (user_block sys (some name) pw).trace.filter SysCall.isPriv =
          [.setgid pw.2, .setuid pw.1]) ∨
     ((user_block sys (some name) pw).status = none ∧
        (user_block sys (some name) pw).trace.filter SysCall.isPriv =
          [.setgid pw.2, .setuid pw.1])) := by
  unfold user_block
  simp only
  split_ifs <;> simp [SysCall.isPriv, Out.andThen, usage]

theorem daemon_block_priv (foreground : Bool) :
    (daemon_block foreground).status = none ∧
    (daemon_block foreground).trace.filter SysCall.isPriv = [] ∧
    ∀ t d : Int, SysCall.tunnel t d ∉ (daemon_block foreground).trace := by
  cases foreground <;> simp [daemon_block, SysCall.isPriv]

theorem run_and_cleanup_priv (sys : Sys) (tun_fd dnsd_fd : Int) :
    (run_and_cleanup sys tun_fd dnsd_fd).trace.filter SysCall.isPriv = [] := by
  unfold run_and_cleanup
  cases sys.tunnel tun_fd dnsd_fd <;> simp [SysCall.isPriv]

/-- The privileged calls of lines 209-245 with `-t dir` and `-u name`. -/
theorem startup_priv (sys : Sys) (cfg : Config) (pw : Int × Int) (ip domain dir name : String)
    (hroot : cfg.newroot = some dir) (huser : cfg.username = some name) :
    ((startup sys cfg pw ip domain).trace.filter SysCall.isPriv <+:
      [.chroot dir, .seteuid sys.geteuid_chroot, .setuid sys.getuid,
       .setgid pw.2, .setuid pw.1]) ∧
    (∀ t d : Int, SysCall.tunnel t d ∈ (startup sys cfg pw ip domain).trace →
      (startup sys cfg pw ip domain).trace.filter SysCall.isPriv =
        [.chroot dir, .seteuid sys.geteuid_chroot, .setuid sys.getuid,
         .setgid pw.2, .setuid pw.1]) := by
  unfold startup
  rw [hroot, huser]
  obtain ⟨hCt, hC⟩ := chroot_block_priv sys dir
  obtain ⟨hUt, hU⟩ := user_block_priv sys name pw
  obtain ⟨hD1, hD2, hDt⟩ := daemon_block_priv cfg.foreground
  have hR := run_and_cleanup_priv sys sys.open_tun (sys.open_dnsd domain)
  generalize chroot_block sys (some dir) = C at hCt hC
  generalize user_block sys (some name) pw = U at hUt hU
  generalize daemon_block cfg.foreground = D at hD1 hD2 hDt
  generalize run_and_cleanup sys sys.open_tun (sys.open_dnsd domain) = R at hR
  split_ifs
  · simp [SysCall.isPriv]
  · simp [SysCall.isPriv]
  · simp [SysCall.isPriv]
  · simp [SysCall.isPriv]
  · simp only [andThen_trace_filter, andThen_status, mem_andThen_trace, hD1, hD2, hR]
    rcases hC with ⟨hC1, hC2⟩ | ⟨hC1, hC2⟩
    · simp [hC1, hC2, SysCall.isPriv, hCt]
    · rcases hU with ⟨hU1, hU2⟩ | ⟨hU1, hU2⟩ | ⟨hU1, hU2⟩
      · simp [hC1, hC2, hU1, hU2, SysCall.isPriv, hCt, hUt, hDt]
      · simp [hC1, hC2, hU1, hU2, SysCall.isPriv, hCt, hUt, hDt]
      · simp [hC1, hC2, hU1, hU2, SysCall.isPriv, hCt, hUt, hDt]

/-- C8, as the code has it (privilege ordering): for every start-up with a
chroot directory (`-t dir`) and a user (`-u name`) configured, the calls
that change the root directory or an identity are issued in the order
`chroot(dir)`, `seteuid(geteuid())`, `setuid(getuid())`, `setgid(pw_gid)`,
`setuid(pw_uid)` (the sequence stops early when start-up fails): `chroot`
comes before every identity change and `setgid(pw_gid)` before
`setuid(pw_uid)`, while the `setuid(getuid())` of the chroot block comes
before `setgid`.  When `tunnel` is reached all five calls have been made. -/
theorem C8_priv_order (sys : Sys) (opts : List (Char × String)) (args : List String)
    (cfg : Config) (dir name : String)
    (hcfg : getopt_loop sys opts Config.init = .ok cfg)
    (hroot : cfg.newroot = some dir) (huser : cfg.username = some name) :
    ((main sys opts args).trace.filter SysCall.isPriv <+:
      [.chroot dir, .seteuid sys.geteuid_chroot, .setuid sys.getuid,
       .setgid ((sys.getpwnam name).getD (0, 0)).2,
       .setuid ((sys.getpwnam name).getD (0, 0)).1]) ∧
    (∀ t d : Int, SysCall.tunnel t d ∈ (main sys opts args).trace →
      (main sys opts args).trace.filter SysCall.isPriv =
        [.chroot dir, .seteuid sys.geteuid_chroot, .setuid sys.getuid,
         .setgid ((sys.getpwnam name).getD (0, 0)).2,
         .setuid ((sys.getpwnam name).getD (0, 0)).1]) := by
  simp only [main, hcfg, checks, checks_trace, huser]
  cases hpw : sys.getpwnam name with
  | none =>
    simp only [Option.getD]
    split_ifs <;> simp [Out.andThen, usage, SysCall.isPriv]
  | some pw =>
    simp only [Option.getD]
    have hS := startup_priv sys cfg pw (args.getD 0 "") (args.getD 1 "") dir name hroot huser
    split_ifs
    · simp [Out.andThen, usage, SysCall.isPriv]
    · simp [Out.andThen, usage, SysCall.isPriv]
    · simp [Out.andThen, usage, SysCall.isPriv]
    · simp only [andThen_trace_filter, mem_andThen_trace]
      simpa [SysCall.isPriv] using hS

end Startup

/-! ## Teardown and exit status of `main()` in general -/

section Teardown

/-- The scripted world obeys the model of the queued flag. -/
theorem simCollab_flagModel : FlagModel simCollab Sim.queued := by
  constructor
  · intro w; rfl
  · intro w h; exact h
  · intro n fds tv w h
    simp only [simCollab]
    cases hs : w.selects with
    | nil => simpa using h
    | cons x rest => simpa using h
  · intro fd buf len w h
    simp only [simCollab]
    cases hs : w.tunReads with
    | nil => simpa using h
    | cons x rest => simpa using h
  · intro dst dlen src slen lvl w h
    exact h

/-- The closes made by lines 209-214 and 239-243 on each failure to acquire
a resource: none after a failed `open_tun`; `close_tun` alone after a failed
`tun_setip` or `tun_setmtu`; `close_dnsd(-1)` and then `close_tun` after a
failed `open_dnsd`. -/
theorem startup_closes (sys : Sys) (cfg : Config) (pw : Int × Int) (ip domain : String) :
    (sys.open_tun = -1 →
      (startup sys cfg pw ip domain).trace.filter SysCall.isClose = []) ∧
    (sys.open_tun ≠ -1 → (sys.tun_setip ip ≠ 0 ∨ sys.tun_setmtu cfg.mtu ≠ 0) →
      (startup sys cfg pw ip domain).trace.filter SysCall.isClose =
        [.close_tun sys.open_tun]) ∧
    (sys.open_tun ≠ -1 → sys.tun_setip ip = 0 → sys.tun_setmtu cfg.mtu = 0 →
      sys.open_dnsd domain = -1 →
      (startup sys cfg pw ip domain).trace.filter SysCall.isClose =
        [.close_dnsd (-1), .close_tun sys.open_tun]) := by
  refine ⟨?_, ?_, ?_⟩
  · intro h
    simp [startup, h, SysCall.isClose]
  · intro h1 h2
    unfold startup
    by_cases h3 : sys.tun_setip ip = 0
    · have h4 : sys.tun_setmtu cfg.mtu ≠ 0 := by
        rcases h2 with h2 | h2
        · exact absurd h3 h2
        · exact h2
      simp [h1, h3, h4, SysCall.isClose]
    · simp [h1, h3, SysCall.isClose]
  · intro h1 h2 h3 h4
    simp [startup, h1, h2, h3, h4, SysCall.isClose]

/-- Once start-up has succeeded, whatever status `tunnel` returns, lines
209-245 end with exit status 0. -/
theorem startup_status_after_tunnel (sys : Sys) (cfg : Config) (pw : Int × Int)
    (ip domain : String) (r : Int)
    (hr : sys.tunnel sys.open_tun (sys.open_dnsd domain) = some r)
    (ht : SysCall.tunnel sys.open_tun (sys.open_dnsd domain) ∈
      (startup sys cfg pw ip domain).trace) :
    (startup sys cfg pw ip domain).status = some 0 := by
  unfold startup at ht ⊢
  split_ifs at ht ⊢
  · rfl
  · rfl
  · rfl
  · rfl
  · have hR : (run_and_cleanup sys sys.open_tun (sys.open_dnsd domain)).status = some 0 := by
      simp [run_and_cleanup, hr]
    simp only [mem_andThen_trace, andThen_status] at ht ⊢
    have hC : ∀ t d : Int, SysCall.tunnel t d ∉ (chroot_block sys cfg.newroot).trace := by
      intro t d
      cases hn : cfg.newroot with
      | none => simp [chroot_block]
      | some dir => exact (chroot_block_priv sys dir).1 t d
    have hU : ∀ t d : Int, SysCall.tunnel t d ∉ (user_block sys cfg.username pw).trace := by
      intro t d
      cases hn : cfg.username with
      | none => simp [user_block]
      | some name => exact (user_block_priv sys name pw).1 t d
    have hD := (daemon_block_priv cfg.foreground).2.2
    have hD1 := (daemon_block_priv cfg.foreground).1
    generalize chroot_block sys cfg.newroot = C at ht hC ⊢
    generalize user_block sys cfg.username pw = U at ht hU ⊢
    generalize daemon_block cfg.foreground = D at ht hD hD1 ⊢
    generalize run_and_cleanup sys sys.open_tun (sys.open_dnsd domain) = R at ht hR ⊢
    obtain ⟨ct, cs⟩ := C
    obtain ⟨ut, us⟩ := U
    obtain ⟨dt, ds⟩ := D
    obtain ⟨rt, rs⟩ := R
    simp only at hD1 hR hC hU hD
    subst hD1 hR
    cases cs <;> cases us <;> simp_all

end Teardown

/-! ## The theorems at concrete inputs -/

/-- C1 at an iteration that starts with a packet queued: only the DNS
descriptor is handed to `select`. -/
theorem C1_backpressure_witness :
    (3 : Int) ≠ 4 ∧
    ((∃ w1 : Sim, simCollab.running sim_hello_queued = (false, w1) ∧
        iter_hello_queued.st.world.trace = [(sim_hello_queued, .running false)]) ∨
      ∃ (w1 w2 w3 : Sim) (a p : Bool) (nfds : Int) (fds : fd_set) (tv : timeval) (i : Int)
        (ready : List Int) (rest : List (Sim × Event)),
        iter_hello_queued.st.world.trace =
          (sim_hello_queued, .running true) :: (w1, .dnsd_hasack a) ::
            (w2, .dnsd_haspacket p) :: (w3, .select nfds fds tv i ready) :: rest ∧
        simCollab.dnsd_haspacket w2 = (p, w3) ∧
        ((3 : Int) ∈ fds ↔ p = false) ∧ (4 : Int) ∈ fds ∧
        (∀ x ∈ rest, x.2.call ≠ .select ∧ x.2.call ≠ .dnsd_haspacket) ∧
        (p = true → ∀ x ∈ rest, x.2.call ≠ .read_tun)) ∧
    iter_hello_queued.st.world.trace.map (fun x => x.2) =
      [.running true, .dnsd_hasack false, .dnsd_haspacket true,
       .select 5 [4] { tv_sec := 1, tv_usec := 0 } 1 [4],
       .dnsd_read 4 BUFSZ simHELLO, .dnsd_queuepacket helloReply 15] :=
  ⟨by decide,
    C1_backpressure simCollab simHELLO 3 4 (by decide) ⟨sim_hello_queued, [], []⟩,
    by decide⟩

/-- C3 at an iteration whose `dnsd_read` returns `GOTHELLO`: the reply is
enqueued and the queued flag is set in the world the iteration leaves. -/
theorem C3_handshake_witness :
    simHELLO ≤ 0 ∧
    (sim_hello_queued_read, Event.dnsd_read 4 BUFSZ simHELLO) ∈
      iter_hello_queued.st.world.trace ∧
    (∃ (pre : List (Sim × Event)) (inb buf reply : Buf) (w1 : Sim),
      simCollab.dnsd_read 4 inb BUFSZ sim_hello_queued_read = ((simHELLO, buf), w1) ∧
      iter_hello_queued.st.world.trace =
        pre ++ [(sim_hello_queued_read, .dnsd_read 4 BUFSZ simHELLO),
                (w1, .dnsd_queuepacket reply 15)] ∧
      reply.take 15 = "172.30.5.2-1023".toList.map Char.toNat ∧
      iter_hello_queued.st.world.world = simCollab.dnsd_queuepacket reply 15 w1 ∧
      iter_hello_queued.st.inbuf = reply ∧
      iter_hello_queued.ctl = .cont ∧
      (∀ x ∈ pre, x.2.call ≠ .dnsd_read) ∧
      ∀ x ∈ iter_hello_queued.st.world.trace,
        x.2.call ≠ .uncompress ∧ x.2.call ≠ .write_tun) ∧
    iter_hello_queued.st.inbuf = helloReply ∧
    iter_hello_queued.st.world.world.queued = true :=
  ⟨by decide, by decide,
    C3_handshake simCollab simHELLO 3 4 (by decide) ⟨sim_hello_queued, [], []⟩
      sim_hello_queued_read 4 BUFSZ (by decide),
    by decide, by decide⟩

/-- C5 at an iteration with an ack pending: the timeout is 50 ms. -/
theorem C5_timeout_witness :
    ((∃ w1 : Sim, simCollab.running sim_idle_ack = (false, w1) ∧
        iter_idle_ack.st.world.trace = [(sim_idle_ack, .running false)]) ∨
      ∃ (w1 w2 w3 : Sim) (a p : Bool) (nfds : Int) (fds : fd_set) (i : Int)
        (ready : List Int) (rest : List (Sim × Event)),
        iter_idle_ack.st.world.trace =
          (sim_idle_ack, .running true) :: (w1, .dnsd_hasack a) :: (w2, .dnsd_haspacket p) ::
            (w3, .select nfds fds
              (if a then { tv_sec := 0, tv_usec := 50000 } else { tv_sec := 1, tv_usec := 0 })
              i ready) :: rest ∧
        simCollab.dnsd_hasack w1 = (a, w2) ∧
        ∀ x ∈ rest, x.2.call ≠ .select) ∧
    iter_idle_ack.st.world.trace.map (fun x => x.2) =
      [.running true, .dnsd_hasack true, .dnsd_haspacket false,
       .select 5 [4, 3] { tv_sec := 0, tv_usec := 50000 } 0 [],
       .dnsd_hasack true, .dnsd_forceack 4] :=
  ⟨C5_timeout simCollab simHELLO 3 4 ⟨sim_idle_ack, [], []⟩, by decide⟩

/-- C6 at an iteration with an ack pending whose `select` returns 0: the ack
is forced, and the ack flag is clear in the world the iteration leaves. -/
theorem C6_forceack_witness :
    (sim_idle_ack, Event.select 5 [4, 3] { tv_sec := 0, tv_usec := 50000 } 0 []) ∈
      iter_idle_ack.st.world.trace ∧
    (∃ (w1 w2 w4 w5 : Sim) (a p a2 : Bool),
      simCollab.select 5 [4, 3] { tv_sec := 0, tv_usec := 50000 } sim_idle_ack =
        ((0, []), w4) ∧
      simCollab.dnsd_hasack w4 = (a2, w5) ∧
      iter_idle_ack.st.world.trace =
        [(sim_idle_ack, .running true), (w1, .dnsd_hasack a), (w2, .dnsd_haspacket p),
         (sim_idle_ack, .select 5 [4, 3] { tv_sec := 0, tv_usec := 50000 } 0 []),
         (w4, .dnsd_hasack a2)] ++
        (if a2 then [(w5, .dnsd_forceack 4)] else []) ∧
      iter_idle_ack.st.world.world = (if a2 then simCollab.dnsd_forceack 4 w5 else w5) ∧
      iter_idle_ack.ctl = .fall) ∧
    iter_idle_ack.st.world.world.ack = false :=
  ⟨by decide,
    (C6_forceack simCollab simHELLO 3 4 ⟨sim_idle_ack, [], []⟩ sim_idle_ack
      5 [4, 3] { tv_sec := 0, tv_usec := 50000 } 0 [] (by decide)).1 rfl,
    by decide⟩

/-- C7 at an iteration whose `read_tun` returns -1, and at an iteration
whose `dnsd_read` returns 0. -/
theorem C7_absorbed_witness :
    ((-1 : Int) ≤ 0 ∧
      (sim_tun_error_read, Event.read_tun 3 BUFSZ (-1)) ∈ iter_tun_error.st.world.trace ∧
      (∃ (w1 w2 w3 w5 : Sim) (a p : Bool) (nfds : Int) (fds : fd_set) (tv : timeval) (i : Int)
        (ready : List Int) (buf : Buf),
        simCollab.read_tun 3 [] BUFSZ sim_tun_error_read = ((-1, buf), w5) ∧
        iter_tun_error.st.world.trace =
          [(sim_tun_error, .running true), (w1, .dnsd_hasack a), (w2, .dnsd_haspacket p),
           (w3, .select nfds fds tv i ready), (sim_tun_error_read, .read_tun 3 BUFSZ (-1))] ∧
        iter_tun_error.st.erase = ⟨w5, buf, []⟩) ∧
      (iter_tun_error.ctl = .cont ∧
        (∀ x ∈ iter_tun_error.st.world.trace, x.2.call ≠ .warn) ∧
        ∀ fuel : Nat,
          tunnel (traced simCollab) simHELLO 3 4 (fuel + 1)
              (Locals.start ⟨sim_tun_error, [], []⟩) =
            tunnel (traced simCollab) simHELLO 3 4 fuel iter_tun_error.st) ∧
      iter_tun_error.st.world.world = { sim_tun_error_read with tunReads := [] }) ∧
    ((0 : Int) ≤ 0 ∧ (0 : Int) ≠ simHELLO ∧
      (sim_dns_empty_read, Event.dnsd_read 4 BUFSZ 0) ∈ iter_dns_empty.st.world.trace ∧
      (∃ (pre : List (Sim × Event)) (inb outb buf : Buf) (w5 : Sim),
        simCollab.dnsd_read 4 inb BUFSZ sim_dns_empty_read = ((0, buf), w5) ∧
        iter_dns_empty.st.world.trace =
          pre ++ [(sim_dns_empty_read, .dnsd_read 4 BUFSZ 0)] ∧
        iter_dns_empty.st.erase = ⟨w5, buf, outb⟩ ∧
        ((∀ x ∈ pre, x.2.call ≠ .compress2) → inb = [] ∧ outb = []) ∧
        ∀ x ∈ pre, x.2.call ≠ .warn ∧ x.2.call ≠ .dnsd_forceack ∧ x.2.call ≠ .uncompress ∧
          x.2.call ≠ .write_tun ∧ x.2.call ≠ .dnsd_read) ∧
      (iter_dns_empty.ctl = .cont ∧
        (∀ x ∈ iter_dns_empty.st.world.trace, x.2.call ≠ .warn) ∧
        ∀ fuel : Nat,
          tunnel (traced simCollab) simHELLO 3 4 (fuel + 1)
              (Locals.start ⟨sim_dns_empty, [], []⟩) =
            tunnel (traced simCollab) simHELLO 3 4 fuel iter_dns_empty.st) ∧
      iter_dns_empty.st.world.world.queued = false) :=
  ⟨⟨by decide, by decide,
     (C7_absorbed simCollab simHELLO 3 4 ⟨sim_tun_error, [], []⟩ sim_tun_error_read 3 BUFSZ
       (-1) (by decide)).1 (by decide),
     (C7_absorbed simCollab simHELLO 3 4 ⟨sim_tun_error, [], []⟩ sim_tun_error_read 3 BUFSZ
       (-1) (by decide)).2.2 (Or.inl (by decide)),
     by decide⟩,
   ⟨by decide, by decide, by decide,
     (C7_absorbed simCollab simHELLO 3 4 ⟨sim_dns_empty, [], []⟩ sim_dns_empty_read 4 BUFSZ
       0 (by decide)).2.1 (by decide) (by decide),
     (C7_absorbed simCollab simHELLO 3 4 ⟨sim_dns_empty, [], []⟩ sim_dns_empty_read 4 BUFSZ
       0 (by decide)).2.2 (Or.inr ⟨by decide, by decide⟩),
     by decide⟩⟩

/-- C8 at a start-up by root with `-t /var/empty -u nobody`. -/
theorem C8_priv_order_witness :
    getopt_loop (sysRoot (some 0)) [('t', "/var/empty"), ('u', "nobody")] Config.init =
      .ok { username := some "nobody", newroot := some "/var/empty", foreground := false,
            mtu := 1024 } ∧
    ((main (sysRoot (some 0)) [('t', "/var/empty"), ('u', "nobody")]
        ["10.0.0.1", "t.example.com"]).trace.filter SysCall.isPriv <+:
      [.chroot "/var/empty", .seteuid 0, .setuid 0, .setgid 100, .setuid 1000]) ∧
    (∀ t d : Int, SysCall.tunnel t d ∈ (main (sysRoot (some 0))
        [('t', "/var/empty"), ('u', "nobody")] ["10.0.0.1", "t.example.com"]).trace →
      (main (sysRoot (some 0)) [('t', "/var/empty"), ('u', "nobody")]
        ["10.0.0.1", "t.example.com"]).trace.filter SysCall.isPriv =
        [.chroot "/var/empty", .seteuid 0, .setuid 0, .setgid 100, .setuid 1000]) :=
  ⟨rfl,
    C8_priv_order (sysRoot (some 0)) [('t', "/var/empty"), ('u', "nobody")]
      ["10.0.0.1", "t.example.com"]
      { username := some "nobody", newroot := some "/var/empty", foreground := false,
        mtu := 1024 }
      "/var/empty" "nobody" rfl rfl rfl⟩

end Iodined
